import Mathlib

/-!
# Vc: capability resolver (`include/Vc/global.h`) and SSE `Vector` (`sse/vector.h`)

A shallow embedding of two parts of the Vc library.

* `sse/vector.h`: a `Vector<T, VectorAbi::Sse>` is its storage `d`, a sequence of `Size`
  lanes of the entry type.  Member functions that mutate `*this` become functions that
  return the new vector; a callback `f` that is only called for effect is represented by the
  list of values it receives, in call order.
* `include/Vc/global.h`: the preprocessor cascade that turns the predefined macros of the
  compiler and the optional `VC_IMPL` override into the `VC_IMPL_*` macros.  The macro state
  is passed explicitly from one block of the header to the next.
-/

namespace Vc

/-! ## sse/vector.h -/

/-- Storage of `Vector<T, VectorAbi::Sse>`: the member `d` with its `Size` lanes, lane `i`
being what `d.m(i)` reads. `Size` is `SSE::VectorTraits<T>::Size`, a parameter here. -/
structure Vector (α : Type) (Size : Nat) where
  d : Fin Size → α

/-- The mask type `SSE::VectorTraits<T>::MaskType`, observed lane by lane: lane `i` is
either true or false. -/
structure Mask (Size : Nat) where
  k : Fin Size → Bool

/-- Modelled from the spec: `HV::blend` of the SSE operation tables (not part of the two
source files).  Lanes where the mask is true take the second operand, lanes where it is
false keep the first operand. -/
def blend {α : Type} {Size : Nat} (a b : Fin Size → α) (k : Fin Size → Bool) : Fin Size → α :=
  fun i => if k i then b i else a i

/-- Modelled from the spec: `SSE::sse_cast<VectorType>(mask.data())`, the mask seen as a
register operand of `blend`; lane truth values are kept. -/
def sse_cast {Size : Nat} (mask : Mask Size) : Fin Size → Bool := mask.k

/-- `Vector::assign(v, mask)` (vector.h:245-249): `data() = HV::blend(data(), v.data(), k)`.
The result is the new value of `*this`. -/
def Vector.assign {α : Type} {Size : Nat} (self v : Vector α Size) (mask : Mask Size) :
    Vector α Size :=
  let k := sse_cast mask
  { d := blend self.d v.d k }

/-- Modelled from the spec: `Common::WriteMaskedVector<Vector, Mask>`, the transient proxy
binding a vector and a mask (its header is not part of the two source files). -/
structure WriteMaskedVector (α : Type) (Size : Nat) where
  vec : Vector α Size
  mask : Mask Size

/-- `Vector::operator()(const Mask &k)` (vector.h:254): `return {this, k}`. -/
def Vector.masked {α : Type} {Size : Nat} (self : Vector α Size) (k : Mask Size) :
    WriteMaskedVector α Size :=
  { vec := self, mask := k }

/-- Modelled from the spec: `WriteMaskedVector::operator=(x)`, which forwards to
`vec->assign(x, mask)`; the result is the new value of the bound vector. -/
def WriteMaskedVector.assignOp {α : Type} {Size : Nat} (w : WriteMaskedVector α Size)
    (x : Vector α Size) : Vector α Size :=
  w.vec.assign x w.mask

/-- The `for` loop of `callWithValuesSorted` (vector.h:291-296), started at index `i` with
the current `value` and the calls made so far.  `fuel` bounds the number of iterations;
`Size` iterations always suffice. -/
def callWithValuesSorted.loop {α : Type} [DecidableEq α] {Size : Nat} (v : Vector α Size) :
    Nat → Nat → α → List α → List α
  | 0, _, _, calls => calls
  | fuel + 1, i, value, calls =>
    if h : i < Size then
      if v.d ⟨i, h⟩ ≠ value then
        callWithValuesSorted.loop v fuel (i + 1) (v.d ⟨i, h⟩) (calls ++ [v.d ⟨i, h⟩])
      else
        callWithValuesSorted.loop v fuel (i + 1) value calls
    else calls

/-- `Vector::callWithValuesSorted(f)` (vector.h:287-297).  The result is the list of values
passed to `f`, in call order.  SSE vectors have at least one lane, so `d.m(0)` exists. -/
def Vector.callWithValuesSorted {α : Type} [DecidableEq α] {n : Nat} (v : Vector α (n + 1)) :
    List α :=
  let value := v.d 0
  callWithValuesSorted.loop v (n + 1) 1 value [value]

/-- The lanes of a vector in lane order `0 .. Size-1`. -/
def Vector.lanes {α : Type} {Size : Nat} (v : Vector α Size) : List α := List.ofFn v.d

/-- Collapse of runs: walk a list and keep an element exactly when it differs from the
last kept value `value`. -/
def collapseRuns {α : Type} [DecidableEq α] : α → List α → List α
  | _, [] => []
  | value, x :: xs => if x ≠ value then x :: collapseRuns x xs else collapseRuns value xs

/-! ## include/Vc/global.h: input of the preprocessor -/

/-- Predefined macros the header reads: those of the compiler (identification, target
features) and those given on the command line (`VC_IMPL`, `VC_DONT_WARN_OLD_GCC`).  A `Bool`
field says whether the macro is defined, an `Option` field also carries its value. -/
structure Env where
  /-- Value of `__cplusplus`. -/
  __cplusplus : Nat
  /-- `__INTEL_COMPILER` is defined. -/
  __INTEL_COMPILER : Bool
  /-- Value of `__INTEL_COMPILER_BUILD_DATE`, read when `__INTEL_COMPILER` is defined. -/
  __INTEL_COMPILER_BUILD_DATE : Nat
  /-- `__OPENCC__` is defined. -/
  __OPENCC__ : Bool
  /-- `__clang__` is defined. -/
  __clang__ : Bool
  /-- `__GNUC__`, `__GNUC_MINOR__`, `__GNUC_PATCHLEVEL__` when `__GNUC__` is defined. -/
  __GNUC__ : Option (Nat × Nat × Nat)
  /-- `_MSC_VER` is defined. -/
  _MSC_VER : Bool
  /-- Value of `_MSC_FULL_VER`, read when `_MSC_VER` is defined. -/
  _MSC_FULL_VER : Nat
  /-- Value of `__GNUC_UBUNTU_VERSION__` when defined. -/
  __GNUC_UBUNTU_VERSION__ : Option Nat
  /-- Value of `_M_IX86_FP` when defined. -/
  _M_IX86_FP : Option Nat
  /-- `_M_AMD64` is defined. -/
  _M_AMD64 : Bool
  __SSE__ : Bool
  __SSE2__ : Bool
  __SSE3__ : Bool
  __SSSE3__ : Bool
  __SSE4_1__ : Bool
  __SSE4_2__ : Bool
  __AVX__ : Bool
  __AVX2__ : Bool
  __MIC__ : Bool
  __FMA4__ : Bool
  __XOP__ : Bool
  __F16C__ : Bool
  __POPCNT__ : Bool
  __SSE4A__ : Bool
  __FMA__ : Bool
  /-- Value of the override `VC_IMPL` when it is defined on entry. -/
  VC_IMPL : Option Nat
  /-- `VC_DONT_WARN_OLD_GCC` is defined. -/
  VC_DONT_WARN_OLD_GCC : Bool
deriving DecidableEq

/-- `VC_ICC` (global.h:26-27): defined as `__INTEL_COMPILER_BUILD_DATE` when
`__INTEL_COMPILER` is defined. -/
def VC_ICC (env : Env) : Option Nat :=
  if env.__INTEL_COMPILER then some env.__INTEL_COMPILER_BUILD_DATE else none

/-- `VC_GCC` (global.h:26-38): defined only when the `#elif defined(__GNUC__)` branch of the
compiler chain is reached; its value is
`__GNUC__ * 0x10000 + __GNUC_MINOR__ * 0x100 + __GNUC_PATCHLEVEL__`. -/
def VC_GCC (env : Env) : Option Nat :=
  if env.__INTEL_COMPILER then none
  else if env.__OPENCC__ then none
  else if env.__clang__ then none
  else
    match env.__GNUC__ with
    | some (major, minor, patchlevel) => some (major * 0x10000 + minor * 0x100 + patchlevel)
    | none => none

/-- `VC_MSVC` (global.h:26-38): defined as `_MSC_FULL_VER` only when the
`#elif defined(_MSC_VER)` branch of the compiler chain is reached. -/
def VC_MSVC (env : Env) : Option Nat :=
  if env.__INTEL_COMPILER then none
  else if env.__OPENCC__ then none
  else if env.__clang__ then none
  else
    match env.__GNUC__ with
    | some _ => none
    | none => if env._MSC_VER then some env._MSC_FULL_VER else none

/-- The C++11 check (global.h:40-46): true when `#error "Vc requires support for C++11."`
is reached. -/
def cxx11Missing (env : Env) : Bool :=
  if env.__cplusplus < 201103 then
    !((match VC_MSVC env with
        | some msvc => decide (msvc ≥ 160000000)
        | none => false) ||
      (match VC_GCC env with
        | some gcc => decide (gcc ≥ 0x40600)
        | none => false) ||
      (match VC_ICC env with
        | some icc => decide (icc ≥ 20120731)
        | none => false))
  else false

/-- `VC_MM256_MASKSTORE_WRONG_MASK_TYPE` is defined (global.h:56-60). -/
def VC_MM256_MASKSTORE_WRONG_MASK_TYPE (env : Env) : Bool :=
  match VC_GCC env with
  | some gcc =>
    (gcc ≤ 0x40405 || (gcc ≥ 0x40500 && gcc ≤ 0x40502)) &&
      !(gcc == 0x40502 && env.__GNUC_UBUNTU_VERSION__ == some 0xb0408)
  | none => false

/-- The MSVC block (global.h:134-155): under MSVC, `__SSE__` and `__SSE2__` are defined by
the header from `_M_IX86_FP` or `_M_AMD64`. -/
def msvcDefines (env : Env) : Env :=
  if (VC_MSVC env).isSome then
    match env._M_IX86_FP with
    | some fp =>
      let env := if fp ≥ 1 then { env with __SSE__ := true } else env
      if fp ≥ 2 then { env with __SSE2__ := true } else env
    | none =>
      if env._M_AMD64 then { env with __SSE__ := true, __SSE2__ := true } else env
  else env

/-! ## include/Vc/global.h: the preprocessor codes (lines 113-132) -/

namespace Code

def Scalar : Nat := 0x00100000
def SSE : Nat := 0x00200000
def SSE2 : Nat := 0x00300000
def SSE3 : Nat := 0x00400000
def SSSE3 : Nat := 0x00500000
def SSE4_1 : Nat := 0x00600000
def SSE4_2 : Nat := 0x00700000
def AVX : Nat := 0x00800000
def AVX2 : Nat := 0x00900000
def MIC : Nat := 0x00A00000

def XOP : Nat := 0x00000001
def FMA4 : Nat := 0x00000002
def F16C : Nat := 0x00000004
def POPCNT : Nat := 0x00000008
def SSE4a : Nat := 0x00000010
def FMA : Nat := 0x00000020

def IMPL_MASK : Nat := 0xFFF00000
def EXT_MASK : Nat := 0x000FFFFF

end Code

/-! ## include/Vc/global.h: macro state -/

/-- The macros the resolver defines; a field is true when the macro is defined. -/
structure Macros where
  VC_IMPL_Scalar : Bool
  VC_IMPL_SSE : Bool
  VC_IMPL_SSE2 : Bool
  VC_IMPL_SSE3 : Bool
  VC_IMPL_SSSE3 : Bool
  VC_IMPL_SSE4_1 : Bool
  VC_IMPL_SSE4_2 : Bool
  VC_IMPL_AVX : Bool
  VC_IMPL_AVX2 : Bool
  VC_IMPL_MIC : Bool
  VC_IMPL_XOP : Bool
  VC_IMPL_FMA4 : Bool
  VC_IMPL_F16C : Bool
  VC_IMPL_POPCNT : Bool
  VC_IMPL_SSE4a : Bool
  VC_IMPL_FMA : Bool
  VC_USE_VEX_CODING : Bool
deriving DecidableEq

/-- No macro of the resolver is defined yet. -/
def Macros.undefined : Macros :=
  { VC_IMPL_Scalar := false, VC_IMPL_SSE := false, VC_IMPL_SSE2 := false,
    VC_IMPL_SSE3 := false, VC_IMPL_SSSE3 := false, VC_IMPL_SSE4_1 := false,
    VC_IMPL_SSE4_2 := false, VC_IMPL_AVX := false, VC_IMPL_AVX2 := false,
    VC_IMPL_MIC := false, VC_IMPL_XOP := false, VC_IMPL_FMA4 := false,
    VC_IMPL_F16C := false, VC_IMPL_POPCNT := false, VC_IMPL_SSE4a := false,
    VC_IMPL_FMA := false, VC_USE_VEX_CODING := false }

/-- The tier macros of a state; the extra-instruction macros and `VC_USE_VEX_CODING` are
dropped. -/
def Macros.tiers (m : Macros) : Macros :=
  { m with VC_IMPL_XOP := false, VC_IMPL_FMA4 := false, VC_IMPL_F16C := false,
           VC_IMPL_POPCNT := false, VC_IMPL_SSE4a := false, VC_IMPL_FMA := false,
           VC_USE_VEX_CODING := false }

/-! ## include/Vc/global.h: the resolver (lines 157-332) -/

/-- First half of the block `#ifndef VC_IMPL` (global.h:159-193): the tier macros found by
auto-detection from the feature macros of the compiler. -/
def autoTiers (env : Env) : Macros :=
  let m := Macros.undefined
  if env.__MIC__ then { m with VC_IMPL_MIC := true }
  else if env.__AVX2__ then { m with VC_IMPL_AVX2 := true, VC_IMPL_AVX := true }
  else if env.__AVX__ then { m with VC_IMPL_AVX := true }
  else
    let m := if env.__SSE4_2__ then { m with VC_IMPL_SSE := true, VC_IMPL_SSE4_2 := true } else m
    let m := if env.__SSE4_1__ then { m with VC_IMPL_SSE := true, VC_IMPL_SSE4_1 := true } else m
    let m := if env.__SSE3__ then { m with VC_IMPL_SSE := true, VC_IMPL_SSE3 := true } else m
    let m := if env.__SSSE3__ then { m with VC_IMPL_SSE := true, VC_IMPL_SSSE3 := true } else m
    let m := if env.__SSE2__ then { m with VC_IMPL_SSE := true, VC_IMPL_SSE2 := true } else m
    if m.VC_IMPL_SSE then m else { m with VC_IMPL_Scalar := true }

/-- Second half of the block `#ifndef VC_IMPL` (global.h:194-213): the extra-instruction
macros, probed only when a vector tier was found. -/
def autoExtras (env : Env) (m : Macros) : Macros :=
  if m.VC_IMPL_AVX2 || m.VC_IMPL_AVX || m.VC_IMPL_SSE || m.VC_IMPL_MIC then
    let m := if env.__FMA4__ then { m with VC_IMPL_FMA4 := true } else m
    let m := if env.__XOP__ then { m with VC_IMPL_XOP := true } else m
    let m := if env.__F16C__ then { m with VC_IMPL_F16C := true } else m
    let m := if env.__POPCNT__ then { m with VC_IMPL_POPCNT := true } else m
    let m := if env.__SSE4A__ then { m with VC_IMPL_SSE4a := true } else m
    if env.__FMA__ then { m with VC_IMPL_FMA := true } else m
  else m

/-- The block `#ifndef VC_IMPL` (global.h:157-213). -/
def autoDetect (env : Env) : Macros :=
  autoExtras env (autoTiers env)

/-- First half of the block `#else // VC_IMPL` (global.h:217-277): the tier cascade for an
override whose value is `impl`. -/
def overrideTiers (env : Env) (impl : Nat) : Macros :=
  let m := Macros.undefined
  if impl &&& Code.IMPL_MASK = Code.MIC then
    let m := { m with VC_IMPL_MIC := true }
    if env.__POPCNT__ then { m with VC_IMPL_POPCNT := true } else m
  else if impl &&& Code.IMPL_MASK = Code.AVX2 then
    { m with VC_IMPL_AVX2 := true, VC_IMPL_AVX := true }
  else if impl &&& Code.IMPL_MASK = Code.AVX then
    { m with VC_IMPL_AVX := true }
  else if impl &&& Code.IMPL_MASK = Code.Scalar then
    { m with VC_IMPL_Scalar := true }
  else if impl &&& Code.IMPL_MASK = Code.SSE4_2 then
    { m with VC_IMPL_SSE4_2 := true, VC_IMPL_SSE4_1 := true, VC_IMPL_SSSE3 := true,
             VC_IMPL_SSE3 := true, VC_IMPL_SSE2 := true, VC_IMPL_SSE := true }
  else if impl &&& Code.IMPL_MASK = Code.SSE4_1 then
    { m with VC_IMPL_SSE4_1 := true, VC_IMPL_SSSE3 := true, VC_IMPL_SSE3 := true,
             VC_IMPL_SSE2 := true, VC_IMPL_SSE := true }
  else if impl &&& Code.IMPL_MASK = Code.SSSE3 then
    { m with VC_IMPL_SSSE3 := true, VC_IMPL_SSE3 := true, VC_IMPL_SSE2 := true,
             VC_IMPL_SSE := true }
  else if impl &&& Code.IMPL_MASK = Code.SSE3 then
    { m with VC_IMPL_SSE3 := true, VC_IMPL_SSE2 := true, VC_IMPL_SSE := true }
  else if impl &&& Code.IMPL_MASK = Code.SSE2 then
    { m with VC_IMPL_SSE2 := true, VC_IMPL_SSE := true }
  else if impl &&& Code.IMPL_MASK = Code.SSE then
    let m := { m with VC_IMPL_SSE := true }
    let m := if env.__SSE4_2__ then { m with VC_IMPL_SSE4_2 := true } else m
    let m := if env.__SSE4_1__ then { m with VC_IMPL_SSE4_1 := true } else m
    let m := if env.__SSE3__ then { m with VC_IMPL_SSE3 := true } else m
    let m := if env.__SSSE3__ then { m with VC_IMPL_SSSE3 := true } else m
    if env.__SSE2__ then { m with VC_IMPL_SSE2 := true } else m
  else if impl &&& Code.IMPL_MASK = 0 ∧ impl &&& Code.SSE4a ≠ 0 then
    { m with VC_IMPL_SSE3 := true, VC_IMPL_SSE2 := true, VC_IMPL_SSE := true }
  else m

/-- Second half of the block `#else // VC_IMPL` (global.h:278-295): the extension bits of
the override.  `#if (x)` tests `x` for being nonzero. -/
def overrideExtras (impl : Nat) (m : Macros) : Macros :=
  let m := if impl &&& Code.XOP ≠ 0 then { m with VC_IMPL_XOP := true } else m
  let m := if impl &&& Code.FMA4 ≠ 0 then { m with VC_IMPL_FMA4 := true } else m
  let m := if impl &&& Code.F16C ≠ 0 then { m with VC_IMPL_F16C := true } else m
  let m := if impl &&& Code.POPCNT ≠ 0 then { m with VC_IMPL_POPCNT := true } else m
  let m := if impl &&& Code.SSE4a ≠ 0 then { m with VC_IMPL_SSE4a := true } else m
  if impl &&& Code.FMA ≠ 0 then { m with VC_IMPL_FMA := true } else m

/-- The block `#else // VC_IMPL` (global.h:215-296). -/
def overrideCascade (env : Env) (impl : Nat) : Macros :=
  overrideExtras impl (overrideTiers env impl)

/-- Lines 300-303: `VC_USE_VEX_CODING` is defined when the compiler defines `__AVX__`. -/
def vexCoding (env : Env) (m : Macros) : Macros :=
  if env.__AVX__ then { m with VC_USE_VEX_CODING := true } else m

/-- Lines 157-303: auto-detection or override cascade, then `VC_USE_VEX_CODING`. -/
def selectImpl (env : Env) : Macros :=
  let m :=
    match env.VC_IMPL with
    | none => autoDetect env
    | some impl => overrideCascade env impl
  vexCoding env m

/-- Diagnostics of kind `#warning` in the resolver. -/
inductive Warning where
  /-- Line 307. -/
  | oldGcc
deriving DecidableEq

/-- Text of a warning. -/
def Warning.message : Warning → String
  | .oldGcc => "GCC < 4.3 does not have full support for SSE2 intrinsics. Using scalar types/operations only. Define VC_DONT_WARN_OLD_GCC to silence this warning."

/-- Condition of the block at line 305:
`defined(VC_GCC) && VC_GCC < 0x40300 && !defined(VC_IMPL_Scalar)`. -/
def oldGccApplies (env : Env) (m : Macros) : Bool :=
  match VC_GCC env with
  | some gcc => decide (gcc < 0x40300) && !m.VC_IMPL_Scalar
  | none => false

/-- The block for GCC < 4.3 (global.h:305-326): the new macro state and the warnings
issued. -/
def oldGccDowngrade (env : Env) (m : Macros) : Macros × List Warning :=
  if oldGccApplies env m then
    let warnings := if env.VC_DONT_WARN_OLD_GCC then [] else [Warning.oldGcc]
    ({ m with VC_IMPL_SSE := false, VC_IMPL_SSE2 := false, VC_IMPL_SSE3 := false,
              VC_IMPL_SSE4_1 := false, VC_IMPL_SSE4_2 := false, VC_IMPL_SSSE3 := false,
              VC_IMPL_AVX := false, VC_IMPL_AVX2 := false, VC_IMPL_MIC := false,
              VC_IMPL_FMA4 := false, VC_IMPL_XOP := false, VC_IMPL_F16C := false,
              VC_IMPL_POPCNT := false, VC_IMPL_SSE4a := false, VC_IMPL_FMA := false,
              VC_USE_VEX_CODING := false, VC_IMPL_Scalar := true }, warnings)
  else (m, [])

/-- Diagnostics of kind `#error` in the header. -/
inductive BuildError where
  /-- Line 44. -/
  | cxx11Required
  /-- Line 329. -/
  | noSuitableImplementation
  /-- Line 331. -/
  | sseWithoutSse2
deriving DecidableEq

/-- Text of an error. -/
def BuildError.message : BuildError → String
  | .cxx11Required => "Vc requires support for C++11."
  | .noSuitableImplementation => "No suitable Vc implementation was selected! Probably VC_IMPL was set to an invalid value."
  | .sseWithoutSse2 => "SSE requested but no SSE2 support. Vc needs at least SSE2!"

/-- The checks of global.h:328-332; `none` when neither `#error` is reached. -/
def errorCheck (m : Macros) : Option BuildError :=
  if !m.VC_IMPL_Scalar && !m.VC_IMPL_SSE && !m.VC_IMPL_AVX && !m.VC_IMPL_MIC then
    some .noSuitableImplementation
  else if m.VC_IMPL_SSE && !m.VC_IMPL_SSE2 then
    some .sseWithoutSse2
  else none

/-! ## include/Vc/global.h: enumerations and the active implementation (lines 417-534) -/

/-- `enum Implementation` (global.h:417-437), without the mask enumerator. -/
inductive Implementation where
  | ScalarImpl
  | SSE2Impl
  | SSE3Impl
  | SSSE3Impl
  | SSE41Impl
  | SSE42Impl
  | AVXImpl
  | AVX2Impl
  | MICImpl
deriving DecidableEq

/-- Numeric value of an enumerator of `Implementation`: consecutive from `ScalarImpl = 0`. -/
def Implementation.toNat : Implementation → Nat
  | .ScalarImpl => 0
  | .SSE2Impl => 1
  | .SSE3Impl => 2
  | .SSSE3Impl => 3
  | .SSE41Impl => 4
  | .SSE42Impl => 5
  | .AVXImpl => 6
  | .AVX2Impl => 7
  | .MICImpl => 8

/-- `Vc::ImplementationMask`. -/
def ImplementationMask : Nat := 0xfff

/-- `enum ExtraInstructions` (global.h:449-466). -/
def Float16cInstructions : Nat := 0x01000
def Fma4Instructions : Nat := 0x02000
def XopInstructions : Nat := 0x04000
def PopcntInstructions : Nat := 0x08000
def Sse4aInstructions : Nat := 0x10000
def FmaInstructions : Nat := 0x20000
def ExtraInstructionsMask : Nat := 0xfffff000

/-- The chain that defines `VC_IMPL` as a tier tag (global.h:470-497); `none` when no branch
is taken and `VC_IMPL` stays undefined. -/
def VC_IMPL (m : Macros) : Option Implementation :=
  if m.VC_IMPL_Scalar then some .ScalarImpl
  else if m.VC_IMPL_MIC then some .MICImpl
  else if m.VC_IMPL_AVX2 then some .AVX2Impl
  else if m.VC_IMPL_AVX then some .AVXImpl
  else if m.VC_IMPL_SSE4_2 then some .SSE42Impl
  else if m.VC_IMPL_SSE4_1 then some .SSE41Impl
  else if m.VC_IMPL_SSSE3 then some .SSSE3Impl
  else if m.VC_IMPL_SSE3 then some .SSE3Impl
  else if m.VC_IMPL_SSE2 then some .SSE2Impl
  else none

/-- `template<unsigned int Features> struct ImplementationT` (global.h:499-503): the three
enumerators for a given `Features`. -/
structure ImplementationT where
  Value : Nat
  Implementation : Nat
  ExtraInstructions : Nat
deriving DecidableEq

/-- Instantiation `ImplementationT<Features>`; the argument is converted to `unsigned int`. -/
def ImplementationT.of (Features : Nat) : ImplementationT :=
  let Features := Features % 2 ^ 32
  { Value := Features,
    Implementation := Features &&& ImplementationMask,
    ExtraInstructions := Features &&& ExtraInstructionsMask }

/-- The tier term of the template argument of `CurrentImplementation` (global.h:506-518).
`none` when the term is `VC_IMPL` and `VC_IMPL` is undefined. -/
def tierTerm (m : Macros) : Option Nat :=
  if m.VC_USE_VEX_CODING then
    if m.VC_IMPL_AVX2 then some Implementation.AVX2Impl.toNat
    else some Implementation.AVXImpl.toNat
  else (VC_IMPL m).map Implementation.toNat

/-- The `+ Vc::...Instructions` terms of the template argument of `CurrentImplementation`
that the nested `#ifdef`s let through (global.h:519-533). -/
def extraTerms (m : Macros) : Nat :=
  (if m.VC_IMPL_SSE4a then
    Sse4aInstructions +
      (if m.VC_IMPL_XOP then
        XopInstructions + (if m.VC_IMPL_FMA4 then Fma4Instructions else 0)
      else 0)
  else 0) +
  (if m.VC_IMPL_POPCNT then PopcntInstructions else 0) +
  (if m.VC_IMPL_FMA then FmaInstructions else 0)

/-- The template argument of `CurrentImplementation` (global.h:505-534). -/
def currentFeatures (m : Macros) : Option Nat :=
  (tierTerm m).map (fun t => t + extraTerms m)

/-- `CurrentImplementation` (global.h:505-534). -/
def CurrentImplementation (m : Macros) : Option ImplementationT :=
  (currentFeatures m).map ImplementationT.of

/-- What a successful run of the resolver leaves behind. -/
structure Resolution where
  /-- The `VC_IMPL_*` macros and `VC_USE_VEX_CODING` after line 332. -/
  macros : Macros
  /-- The warnings issued. -/
  warnings : List Warning
  /-- The tier tag `VC_IMPL` of lines 470-497. -/
  VC_IMPL : Option Implementation
  /-- The type `CurrentImplementation` of lines 505-534. -/
  CurrentImplementation : Option ImplementationT
deriving DecidableEq

/-- The macro state after the block for GCC < 4.3, that is at line 327. -/
def macrosAfterDowngrade (env : Env) : Macros :=
  (oldGccDowngrade env (selectImpl env)).1

/-- The resolver (global.h:157-534), run on the macros as they stand at line 157:
auto-detection or override cascade, VEX coding, the block for GCC < 4.3, the `#error`
checks, and on success the active implementation. -/
def resolve (env : Env) : Except BuildError Resolution :=
  let m := selectImpl env
  let (m, warnings) := oldGccDowngrade env m
  match errorCheck m with
  | some e => .error e
  | none =>
    .ok { macros := m, warnings := warnings, VC_IMPL := VC_IMPL m,
          CurrentImplementation := CurrentImplementation m }

/-- The header from the predefined macros of the compiler: the C++11 check (lines 40-46),
the MSVC block (lines 134-155), then the resolver. -/
def header (env : Env) : Except BuildError Resolution :=
  if cxx11Missing env then .error .cxx11Required
  else resolve (msvcDefines env)

/-! ## Vocabulary of the specification -/

/-- The preprocessor code by which an override names a tier (`-DVC_IMPL=SSE3` names
`SSE3Impl`). -/
def Implementation.code : Implementation → Nat
  | .ScalarImpl => Code.Scalar
  | .SSE2Impl => Code.SSE2
  | .SSE3Impl => Code.SSE3
  | .SSSE3Impl => Code.SSSE3
  | .SSE41Impl => Code.SSE4_1
  | .SSE42Impl => Code.SSE4_2
  | .AVXImpl => Code.AVX
  | .AVX2Impl => Code.AVX2
  | .MICImpl => Code.MIC

/-- The most capable tier whose feature macro is defined, in the order
MIC > AVX2 > AVX > SSE4.2 > SSE4.1 > SSSE3 > SSE3 > SSE2, and Scalar when none is. -/
def mostCapable (env : Env) : Implementation :=
  if env.__MIC__ then .MICImpl
  else if env.__AVX2__ then .AVX2Impl
  else if env.__AVX__ then .AVXImpl
  else if env.__SSE4_2__ then .SSE42Impl
  else if env.__SSE4_1__ then .SSE41Impl
  else if env.__SSSE3__ then .SSSE3Impl
  else if env.__SSE3__ then .SSE3Impl
  else if env.__SSE2__ then .SSE2Impl
  else .ScalarImpl

/-- Auto-detection reaches the SSE tiers (none of `__MIC__`, `__AVX2__`, `__AVX__` is
defined) and finds a tier above SSE2 while `__SSE2__` is not defined. -/
def sseProbedWithoutSse2 (env : Env) : Bool :=
  !env.__MIC__ && !env.__AVX2__ && !env.__AVX__ && !env.__SSE2__ &&
    (env.__SSE4_2__ || env.__SSE4_1__ || env.__SSSE3__ || env.__SSE3__)

/-- Tier `t` is enabled in a macro state: its `VC_IMPL_*` macro is defined. -/
def Macros.enabled (m : Macros) : Implementation → Bool
  | .ScalarImpl => m.VC_IMPL_Scalar
  | .SSE2Impl => m.VC_IMPL_SSE2
  | .SSE3Impl => m.VC_IMPL_SSE3
  | .SSSE3Impl => m.VC_IMPL_SSSE3
  | .SSE41Impl => m.VC_IMPL_SSE4_1
  | .SSE42Impl => m.VC_IMPL_SSE4_2
  | .AVXImpl => m.VC_IMPL_AVX
  | .AVX2Impl => m.VC_IMPL_AVX2
  | .MICImpl => m.VC_IMPL_MIC

/-- The SSE family of tiers: SSE2, SSE3, SSSE3, SSE4.1, SSE4.2, in ascending order of
their enumerators. -/
def Implementation.isSse : Implementation → Bool
  | .SSE2Impl | .SSE3Impl | .SSSE3Impl | .SSE41Impl | .SSE42Impl => true
  | _ => false

/-- The family of tier `t` is enabled from `t` downwards: for an SSE-family tier, the
generic SSE macro and every SSE-family tier up to `t`; for AVX2, also AVX. -/
def familyEnabled (t : Implementation) (m : Macros) : Prop :=
  (t.isSse = true →
    m.VC_IMPL_SSE = true ∧
    ∀ t2 : Implementation, t2.isSse = true → t2.toNat ≤ t.toNat → m.enabled t2 = true) ∧
  (t = .AVX2Impl → m.VC_IMPL_AVX2 = true ∧ m.VC_IMPL_AVX = true)

/-- The macro state in which Scalar is the only macro defined: no other tier, no
extra-instruction macro, no `VC_USE_VEX_CODING`. -/
def Macros.scalarOnly : Macros :=
  { VC_IMPL_Scalar := true, VC_IMPL_SSE := false, VC_IMPL_SSE2 := false,
    VC_IMPL_SSE3 := false, VC_IMPL_SSSE3 := false, VC_IMPL_SSE4_1 := false,
    VC_IMPL_SSE4_2 := false, VC_IMPL_AVX := false, VC_IMPL_AVX2 := false,
    VC_IMPL_MIC := false, VC_IMPL_XOP := false, VC_IMPL_FMA4 := false,
    VC_IMPL_F16C := false, VC_IMPL_POPCNT := false, VC_IMPL_SSE4a := false,
    VC_IMPL_FMA := false, VC_USE_VEX_CODING := false }

/-- An environment of a C++11 compiler in which no other macro is defined. -/
def Env.bare : Env :=
  { __cplusplus := 201103, __INTEL_COMPILER := false, __INTEL_COMPILER_BUILD_DATE := 0,
    __OPENCC__ := false, __clang__ := false, __GNUC__ := none,
    _MSC_VER := false, _MSC_FULL_VER := 0, __GNUC_UBUNTU_VERSION__ := none,
    _M_IX86_FP := none,
    _M_AMD64 := false, __SSE__ := false, __SSE2__ := false, __SSE3__ := false,
    __SSSE3__ := false, __SSE4_1__ := false, __SSE4_2__ := false, __AVX__ := false,
    __AVX2__ := false, __MIC__ := false, __FMA4__ := false, __XOP__ := false,
    __F16C__ := false, __POPCNT__ := false, __SSE4A__ := false, __FMA__ := false,
    VC_IMPL := none, VC_DONT_WARN_OLD_GCC := false }

/-- The six flags of `enum ExtraInstructions` (global.h:449-466), as a set. -/
def extraInstructionFlags : Finset Nat :=
  {Float16cInstructions, Fma4Instructions, XopInstructions, PopcntInstructions,
   Sse4aInstructions, FmaInstructions}

/-! ## include/Vc/global.h: load/store flags (lines 357-406) -/

/-- The enumerators of the four flag enumerations `AlignedFlag`, `UnalignedFlag`,
`StreamingAndAlignedFlag` and `StreamingAndUnalignedFlag` (global.h:357-368).  Each
enumeration has exactly one enumerator, so an enumerator stands for its type in overload
resolution. -/
inductive LoadStoreFlag where
  | Aligned
  | Unaligned
  | Streaming
  | StreamingAndUnaligned
deriving DecidableEq

/-- Numeric value of an enumerator (global.h:358, 361, 364, 367). -/
def LoadStoreFlag.value : LoadStoreFlag → Nat
  | .Aligned => 0
  | .Unaligned => 1
  | .Streaming => 2
  | .StreamingAndUnaligned => 3

/-- The overloads of `operator|` on the flag types (global.h:398-399 and 403-404); `none`
when the header declares no overload for the operand types. -/
def LoadStoreFlag.or : LoadStoreFlag → LoadStoreFlag → Option LoadStoreFlag
  | .Unaligned, .Streaming => some .StreamingAndUnaligned
  | .Streaming, .Unaligned => some .StreamingAndUnaligned
  | .Aligned, .Streaming => some .Streaming
  | .Streaming, .Aligned => some .Streaming
  | _, _ => none

/-- The overloads of `operator&` on the flag types (global.h:400-401 and 405-406); `none`
when the header declares no overload for the operand types. -/
def LoadStoreFlag.and : LoadStoreFlag → LoadStoreFlag → Option LoadStoreFlag
  | .Unaligned, .Streaming => some .StreamingAndUnaligned
  | .Streaming, .Unaligned => some .StreamingAndUnaligned
  | .Aligned, .Streaming => some .Streaming
  | .Streaming, .Aligned => some .Streaming
  | _, _ => none

/-- An alignment flag: `Aligned` or `Unaligned`. -/
def LoadStoreFlag.isAlignment : LoadStoreFlag → Bool
  | .Aligned | .Unaligned => true
  | _ => false

/-! ## sse/vector.h: conditional_assign (lines 383-414) -/

/-- Modelled from the spec: `enum class Operator`, the closed enumeration of compound
operators of the conditional-assign dispatch (declared outside the two source files). -/
inductive Operator where
  | Assign
  | PlusAssign
  | MinusAssign
  | MultiplyAssign
  | DivideAssign
  | RemainderAssign
  | XorAssign
  | AndAssign
  | OrAssign
  | LeftShiftAssign
  | RightShiftAssign
  | PreIncrement
  | PostIncrement
  | PreDecrement
  | PostDecrement
deriving DecidableEq

/-- The masked operators of `Common::WriteMaskedVector` other than `=`, which are defined
outside the two source files: taken as parameters.  A compound assignment maps the proxy and
the right operand to the new value of the bound vector; an increment or decrement maps the
proxy to the new value of the bound vector and the value of the expression. -/
structure MaskedOperators (α : Type) (Size : Nat) where
  /-- `lhs(mask) += rhs` -/
  plusEq : WriteMaskedVector α Size → Vector α Size → Vector α Size
  /-- `lhs(mask) -= rhs` -/
  minusEq : WriteMaskedVector α Size → Vector α Size → Vector α Size
  /-- `lhs(mask) *= rhs` -/
  timesEq : WriteMaskedVector α Size → Vector α Size → Vector α Size
  /-- `lhs(mask) /= rhs` -/
  divEq : WriteMaskedVector α Size → Vector α Size → Vector α Size
  /-- `lhs(mask) %= rhs` -/
  modEq : WriteMaskedVector α Size → Vector α Size → Vector α Size
  /-- `lhs(mask) ^= rhs` -/
  xorEq : WriteMaskedVector α Size → Vector α Size → Vector α Size
  /-- `lhs(mask) &= rhs` -/
  andEq : WriteMaskedVector α Size → Vector α Size → Vector α Size
  /-- `lhs(mask) |= rhs` -/
  orEq : WriteMaskedVector α Size → Vector α Size → Vector α Size
  /-- `lhs(mask) <<= rhs` -/
  shlEq : WriteMaskedVector α Size → Vector α Size → Vector α Size
  /-- `lhs(mask) >>= rhs` -/
  shrEq : WriteMaskedVector α Size → Vector α Size → Vector α Size
  /-- `lhs(mask)++` -/
  postInc : WriteMaskedVector α Size → Vector α Size × Vector α Size
  /-- `++lhs(mask)` -/
  preInc : WriteMaskedVector α Size → Vector α Size × Vector α Size
  /-- `lhs(mask)--` -/
  postDec : WriteMaskedVector α Size → Vector α Size × Vector α Size
  /-- `--lhs(mask)` -/
  preDec : WriteMaskedVector α Size → Vector α Size × Vector α Size

/-- One function template generated by the first `Vc_CONDITIONAL_ASSIGN` (vector.h:383-389):
it is enabled when `O == Operator::name__` and its body is `lhs(mask) op__ rhs`. -/
structure BinaryOverload (α : Type) (Size : Nat) where
  name__ : Operator
  op__ : WriteMaskedVector α Size → Vector α Size → Vector α Size

/-- The eleven invocations of the first `Vc_CONDITIONAL_ASSIGN` (vector.h:390-400). -/
def binaryOverloads {α : Type} {Size : Nat} (ops : MaskedOperators α Size) :
    List (BinaryOverload α Size) :=
  [ ⟨.Assign, WriteMaskedVector.assignOp⟩,
    ⟨.PlusAssign, ops.plusEq⟩,
    ⟨.MinusAssign, ops.minusEq⟩,
    ⟨.MultiplyAssign, ops.timesEq⟩,
    ⟨.DivideAssign, ops.divEq⟩,
    ⟨.RemainderAssign, ops.modEq⟩,
    ⟨.XorAssign, ops.xorEq⟩,
    ⟨.AndAssign, ops.andEq⟩,
    ⟨.OrAssign, ops.orEq⟩,
    ⟨.LeftShiftAssign, ops.shlEq⟩,
    ⟨.RightShiftAssign, ops.shrEq⟩ ]

/-- One function template generated by the second `Vc_CONDITIONAL_ASSIGN`
(vector.h:403-409): it is enabled when `O == Operator::name__` and returns `expr__`. -/
structure UnaryOverload (α : Type) (Size : Nat) where
  name__ : Operator
  expr__ : WriteMaskedVector α Size → Vector α Size × Vector α Size

/-- The four invocations of the second `Vc_CONDITIONAL_ASSIGN` (vector.h:410-413). -/
def unaryOverloads {α : Type} {Size : Nat} (ops : MaskedOperators α Size) :
    List (UnaryOverload α Size) :=
  [ ⟨.PostIncrement, ops.postInc⟩,
    ⟨.PreIncrement, ops.preInc⟩,
    ⟨.PostDecrement, ops.postDec⟩,
    ⟨.PreDecrement, ops.preDec⟩ ]

/-- The call `conditional_assign<O>(lhs, mask, rhs)`: among the three-argument overloads
those with `O == Operator::name__` are enabled; the call is well-formed when exactly one is,
and then yields the new value of `lhs`. -/
def conditional_assign {α : Type} {Size : Nat} (ops : MaskedOperators α Size) (O : Operator)
    (lhs : Vector α Size) (mask : Mask Size) (rhs : Vector α Size) : Option (Vector α Size) :=
  match (binaryOverloads ops).filter (fun o => decide (o.name__ = O)) with
  | [o] => some (o.op__ (lhs.masked mask) rhs)
  | _ => none

/-- The call `conditional_assign<O>(lhs, mask)`: among the two-argument overloads those
with `O == Operator::name__` are enabled; the call is well-formed when exactly one is, and
then yields the new value of `lhs` and the returned vector. -/
def conditional_assign_unary {α : Type} {Size : Nat} (ops : MaskedOperators α Size)
    (O : Operator) (lhs : Vector α Size) (mask : Mask Size) :
    Option (Vector α Size × Vector α Size) :=
  match (unaryOverloads ops).filter (fun o => decide (o.name__ = O)) with
  | [o] => some (o.expr__ (lhs.masked mask))
  | _ => none

/-- The masked compound assignment that an operator names, written directly as
`lhs(mask) op rhs`; `none` for the increment and decrement forms. -/
def maskedBinary {α : Type} {Size : Nat} (ops : MaskedOperators α Size) :
    Operator → Option (WriteMaskedVector α Size → Vector α Size → Vector α Size)
  | .Assign => some WriteMaskedVector.assignOp
  | .PlusAssign => some ops.plusEq
  | .MinusAssign => some ops.minusEq
  | .MultiplyAssign => some ops.timesEq
  | .DivideAssign => some ops.divEq
  | .RemainderAssign => some ops.modEq
  | .XorAssign => some ops.xorEq
  | .AndAssign => some ops.andEq
  | .OrAssign => some ops.orEq
  | .LeftShiftAssign => some ops.shlEq
  | .RightShiftAssign => some ops.shrEq
  | _ => none

/-- The masked increment or decrement that an operator names, written directly; `none` for
the compound assignments. -/
def maskedUnary {α : Type} {Size : Nat} (ops : MaskedOperators α Size) :
    Operator → Option (WriteMaskedVector α Size → Vector α Size × Vector α Size)
  | .PreIncrement => some ops.preInc
  | .PostIncrement => some ops.postInc
  | .PreDecrement => some ops.preDec
  | .PostDecrement => some ops.postDec
  | _ => none

/-- Modelled from the spec: a masked compound operator computed lane by lane; lanes where
the mask is true are updated with `f`, lanes where it is false are left unchanged. -/
def maskedUpdate {α : Type} {Size : Nat} (f : α → α → α) (w : WriteMaskedVector α Size)
    (rhs : Vector α Size) : Vector α Size :=
  { d := fun i => if w.mask.k i then f (w.vec.d i) (rhs.d i) else w.vec.d i }

/-- Modelled from the spec: the masked operators on lanes of natural numbers, each computed
lane by lane under the mask; a prefix form returns the updated vector, a postfix form the
vector as it was. -/
def MaskedOperators.natLanes (Size : Nat) : MaskedOperators Nat Size :=
  { plusEq := maskedUpdate (· + ·),
    minusEq := maskedUpdate (· - ·),
    timesEq := maskedUpdate (· * ·),
    divEq := maskedUpdate (· / ·),
    modEq := maskedUpdate (· % ·),
    xorEq := maskedUpdate (· ^^^ ·),
    andEq := maskedUpdate (· &&& ·),
    orEq := maskedUpdate (· ||| ·),
    shlEq := maskedUpdate (· <<< ·),
    shrEq := maskedUpdate (· >>> ·),
    postInc := fun w => (maskedUpdate (fun x _ => x + 1) w w.vec, w.vec),
    preInc := fun w =>
      (maskedUpdate (fun x _ => x + 1) w w.vec, maskedUpdate (fun x _ => x + 1) w w.vec),
    postDec := fun w => (maskedUpdate (fun x _ => x - 1) w w.vec, w.vec),
    preDec := fun w =>
      (maskedUpdate (fun x _ => x - 1) w w.vec, maskedUpdate (fun x _ => x - 1) w w.vec) }

/-! ## sse/vector.h: apply (lines 313-328) -/

/-- The store `d.set(i, x)`: lane `i` becomes `x`, the other lanes are kept. -/
def Vector.set {α : Type} {Size : Nat} (v : Vector α Size) (i : Fin Size) (x : α) :
    Vector α Size :=
  { d := Function.update v.d i x }

/-- Modelled from the spec: the macro `for_all_vector_entries(i, ...)` (defined outside the
two source files) runs its body for every lane index `0 .. Size-1` in ascending order. -/
def for_all_vector_entries (Size : Nat) : List (Fin Size) := List.finRange Size

/-- Modelled from the spec: `where(mask)` (defined outside the two source files) iterates
over the lane indices at which the mask is true, in ascending order. -/
def whereMask {Size : Nat} (mask : Mask Size) : List (Fin Size) :=
  (List.finRange Size).filter (fun i => mask.k i)

/-- `Vector::apply(f)` (vector.h:313-320): `r.d.set(i, f(d.m(i)))` for every lane index;
`r` starts as the default-constructed vector `r0`. -/
def Vector.apply {α : Type} {Size : Nat} (self : Vector α Size) (f : α → α)
    (r0 : Vector α Size) : Vector α Size :=
  (for_all_vector_entries Size).foldl (fun r i => r.set i (f (self.d i))) r0

/-- `Vector::apply(f, mask)` (vector.h:321-328): `r` starts as a copy of `*this`, then
`r.d.set(i, f(r.d.m(i)))` for every index of `where(mask)`. -/
def Vector.applyMasked {α : Type} {Size : Nat} (self : Vector α Size) (f : α → α)
    (mask : Mask Size) : Vector α Size :=
  (whereMask mask).foldl (fun r i => r.set i (f (r.d i))) self

/-- Modelled from the spec: the mask with every lane true. -/
def Mask.full (Size : Nat) : Mask Size := { k := fun _ => true }

/-- Modelled from the spec: the mask with every lane false. -/
def Mask.empty (Size : Nat) : Mask Size := { k := fun _ => false }

/-! ## sse/vector.h: comparisons (lines 227-236) -/

/-- Modelled from the spec: a value of a floating-point entry type (`float`, `double`), as
far as a comparison sees it: a NaN (what `setQnan` stores and `isnan` tests) or a number. -/
inductive FloatEntry (β : Type) where
  | nan
  | number (x : β)
deriving DecidableEq

/-- Modelled from the spec: `==` of a floating-point entry type.  A NaN compares unequal to
every value, itself included; two numbers compare by their values. -/
def FloatEntry.eq {β : Type} [DecidableEq β] : FloatEntry β → FloatEntry β → Bool
  | .number x, .number y => decide (x = y)
  | _, _ => false

/-- Modelled from the spec: the comparison of one lane pair in the operation table
`SSE::VectorHelper<T>` (`HT`, not part of the two source files), which depends on the entry
type `T`. -/
structure EntryCompare (α : Type) where
  /-- `==` of the entry type -/
  eq : α → α → Bool

/-- Modelled from the spec: the comparison of an integral entry type, equality of the lane
values. -/
def EntryCompare.integral {α : Type} [DecidableEq α] : EntryCompare α :=
  { eq := fun x y => decide (x = y) }

/-- Modelled from the spec: the comparison of a floating-point entry type. -/
def EntryCompare.floating {β : Type} [DecidableEq β] : EntryCompare (FloatEntry β) :=
  { eq := FloatEntry.eq }

/-- Modelled from the spec: `HT::cmpeq` of the SSE operation tables (not part of the two
source files): the comparison `==` of the entry type, lane by lane. -/
def HT.cmpeq {α : Type} (T : EntryCompare α) {Size : Nat} (a b : Fin Size → α) : Mask Size :=
  { k := fun i => T.eq (a i) (b i) }

/-- Modelled from the spec: `HT::cmpneq` of the SSE operation tables (not part of the two
source files): the comparison `!=` of the entry type, lane by lane; `x != y` is true exactly
when `x == y` is false. -/
def HT.cmpneq {α : Type} (T : EntryCompare α) {Size : Nat} (a b : Fin Size → α) :
    Mask Size :=
  { k := fun i => !T.eq (a i) (b i) }

/-- `Vector::operator==` (vector.h:230): `HT::cmpeq(data(), x.data())`. -/
def Vector.cmpEq {α : Type} (T : EntryCompare α) {Size : Nat} (self x : Vector α Size) :
    Mask Size :=
  HT.cmpeq T self.d x.d

/-- `Vector::operator!=` (vector.h:231): `HT::cmpneq(data(), x.data())`. -/
def Vector.cmpNe {α : Type} (T : EntryCompare α) {Size : Nat} (self x : Vector α Size) :
    Mask Size :=
  HT.cmpneq T self.d x.d

/-- Modelled from the spec: `Mask::isFull()`, true when every lane is true. -/
def Mask.isFull {Size : Nat} (m : Mask Size) : Bool :=
  decide (∀ i, m.k i = true)

/-- Modelled from the spec: `Mask::operator!`, the mask of the negated lanes. -/
def Mask.not {Size : Nat} (m : Mask Size) : Mask Size :=
  { k := fun i => !m.k i }

/-! ## sse/vector.h: static constraints of the bitwise operators (lines 171-178, 211-225) -/

/-- The entry types of the SSE vector types that vector.h names (lines 352-363):
`double_v`, `float_v`, `int_v`, `uint_v`, `short_v`, `ushort_v`. -/
inductive EntryType where
  | double
  | float
  | int
  | uint
  | short
  | ushort
deriving DecidableEq

/-- The trait `std::is_integral<T>::value`. -/
def EntryType.is_integral : EntryType → Bool
  | .double => false
  | .float => false
  | .int => true
  | .uint => true
  | .short => true
  | .ushort => true

/-- The bitwise operators of `Vector`: the binary operators that `VC_ALL_BINARY(OP)`
generates with their compound-assignment forms (vector.h:211-225), and `operator~`
(vector.h:171-178).  Modelled from the spec: the macro `VC_ALL_BINARY` (defined outside the
two source files) applies `OP` to `|`, `&` and `^`. -/
inductive BitwiseOperator where
  | or
  | and
  | xor
  | orAssign
  | andAssign
  | xorAssign
  | complement
deriving DecidableEq

/-- Instantiation of a bitwise operator of `Vector<T>` in a build where
`VC_ENABLE_FLOAT_BIT_OPERATORS` is or is not defined: `none` when the instantiation is
accepted, the message of the failing `static_assert` otherwise. -/
def instantiateBitwise (VC_ENABLE_FLOAT_BIT_OPERATORS : Bool) (op : BitwiseOperator)
    (T : EntryType) : Option String :=
  match op with
  | .complement =>
    if !VC_ENABLE_FLOAT_BIT_OPERATORS then
      if T.is_integral then none
      else some "bit-complement can only be used with Vectors of integral type"
    else none
  | _ =>
    if T.is_integral then none
    else some "bitwise operators can only be used with Vectors of integral type"

/-! ## sse/vector.h: arithmetic operators (lines 182-196) -/

/-- The functions of `SSE::VectorHelper<T>` (`HT`) that the arithmetic operators call, and
`Vector::operator%`, which vector.h only declares: all defined outside the two source files
and taken as parameters. -/
structure VectorHelper (α : Type) (Size : Nat) where
  /-- `HT::add` -/
  add : (Fin Size → α) → (Fin Size → α) → (Fin Size → α)
  /-- `HT::sub` -/
  sub : (Fin Size → α) → (Fin Size → α) → (Fin Size → α)
  /-- `HT::mul` -/
  mul : (Fin Size → α) → (Fin Size → α) → (Fin Size → α)
  /-- `Vector::operator%` (vector.h:187) -/
  operatorMod : Vector α Size → Vector α Size → Vector α Size

/-- The compound-assignment member generated by `OP(symbol, fun)` (vector.h:190):
`data() = HT::fun(data(), x.data()); return *this;`.  The result is the new value of
`*this` paired with the value of the expression, which is `*this` itself. -/
def OP.assign {α : Type} {Size : Nat}
    (f : (Fin Size → α) → (Fin Size → α) → (Fin Size → α)) (self x : Vector α Size) :
    Vector α Size × Vector α Size :=
  let self : Vector α Size := { d := f self.d x.d }
  (self, self)

/-- The binary member generated by `OP(symbol, fun)` (vector.h:191):
`return HT::fun(data(), x.data());`. -/
def OP.binary {α : Type} {Size : Nat}
    (f : (Fin Size → α) → (Fin Size → α) → (Fin Size → α)) (self x : Vector α Size) :
    Vector α Size :=
  { d := f self.d x.d }

/-- `Vector::operator+=`, from `OP(+, add)` (vector.h:193). -/
def Vector.addAssign {α : Type} {Size : Nat} (HT : VectorHelper α Size)
    (self x : Vector α Size) : Vector α Size × Vector α Size :=
  OP.assign HT.add self x

/-- `Vector::operator+`, from `OP(+, add)` (vector.h:193). -/
def Vector.add {α : Type} {Size : Nat} (HT : VectorHelper α Size) (self x : Vector α Size) :
    Vector α Size :=
  OP.binary HT.add self x

/-- `Vector::operator-=`, from `OP(-, sub)` (vector.h:194). -/
def Vector.subAssign {α : Type} {Size : Nat} (HT : VectorHelper α Size)
    (self x : Vector α Size) : Vector α Size × Vector α Size :=
  OP.assign HT.sub self x

/-- `Vector::operator-`, from `OP(-, sub)` (vector.h:194). -/
def Vector.sub {α : Type} {Size : Nat} (HT : VectorHelper α Size) (self x : Vector α Size) :
    Vector α Size :=
  OP.binary HT.sub self x

/-- `Vector::operator*=`, from `OP(*, mul)` (vector.h:195). -/
def Vector.mulAssign {α : Type} {Size : Nat} (HT : VectorHelper α Size)
    (self x : Vector α Size) : Vector α Size × Vector α Size :=
  OP.assign HT.mul self x

/-- `Vector::operator*`, from `OP(*, mul)` (vector.h:195). -/
def Vector.mul {α : Type} {Size : Nat} (HT : VectorHelper α Size) (self x : Vector α Size) :
    Vector α Size :=
  OP.binary HT.mul self x

/-- `Vector::operator%=` (vector.h:182-186): `*this = *this % x; return *this;`.  The result
is the new value of `*this` paired with the value of the expression, which is `*this`
itself. -/
def Vector.modAssign {α : Type} {Size : Nat} (HT : VectorHelper α Size)
    (self x : Vector α Size) : Vector α Size × Vector α Size :=
  let self := HT.operatorMod self x
  (self, self)

/-- The four arithmetic operators that vector.h defines together with a compound form. -/
inductive ArithmeticOperator where
  | plus
  | minus
  | times
  | remainder
deriving DecidableEq

/-- The compound assignment `a op= x` for each arithmetic operator. -/
def Vector.compoundAssign {α : Type} {Size : Nat} (HT : VectorHelper α Size) :
    ArithmeticOperator → Vector α Size → Vector α Size → Vector α Size × Vector α Size
  | .plus => Vector.addAssign HT
  | .minus => Vector.subAssign HT
  | .times => Vector.mulAssign HT
  | .remainder => Vector.modAssign HT

/-- The binary expression `a op x` for each arithmetic operator. -/
def Vector.binaryOp {α : Type} {Size : Nat} (HT : VectorHelper α Size) :
    ArithmeticOperator → Vector α Size → Vector α Size → Vector α Size
  | .plus => Vector.add HT
  | .minus => Vector.sub HT
  | .times => Vector.mul HT
  | .remainder => HT.operatorMod

/-- Modelled from the spec: the operation table of an unsigned entry type of `w` bits,
whose arithmetic is lane by lane and wraps around modulo `2 ^ w`. -/
def VectorHelper.unsignedLanes (w Size : Nat) : VectorHelper Nat Size :=
  { add := fun a b i => (a i + b i) % 2 ^ w,
    sub := fun a b i => (a i + 2 ^ w - b i % 2 ^ w) % 2 ^ w,
    mul := fun a b i => (a i * b i) % 2 ^ w,
    operatorMod := fun a b => { d := fun i => a.d i % b.d i } }

/-! ## Theorems: sse/vector.h -/

theorem Vector.lanes_length {α : Type} {Size : Nat} (v : Vector α Size) :
    v.lanes.length = Size := by
  simp [Vector.lanes]

theorem Vector.lanes_drop {α : Type} {Size : Nat} (v : Vector α Size) (i : Nat)
    (h : i < Size) : v.lanes.drop i = v.d ⟨i, h⟩ :: v.lanes.drop (i + 1) := by
  have hlen : i < v.lanes.length := by simpa [Vector.lanes_length] using h
  rw [List.drop_eq_getElem_cons hlen]
  simp [Vector.lanes]

/-- The loop run with enough fuel appends to the calls made so far the collapse of the
remaining lanes. -/
theorem callWithValuesSorted.loop_eq {α : Type} [DecidableEq α] {Size : Nat}
    (v : Vector α Size) (fuel : Nat) :
    ∀ (i : Nat) (value : α) (calls : List α), Size ≤ i + fuel →
      callWithValuesSorted.loop v fuel i value calls
        = calls ++ collapseRuns value (v.lanes.drop i) := by
  induction fuel with
  | zero =>
    intro i value calls h
    have hd : v.lanes.drop i = [] := by
      apply List.drop_eq_nil_of_le
      simpa [Vector.lanes_length] using h
    simp [callWithValuesSorted.loop, hd, collapseRuns]
  | succ fuel ih =>
    intro i value calls h
    unfold callWithValuesSorted.loop
    by_cases hi : i < Size
    · rw [dif_pos hi, Vector.lanes_drop v i hi]
      by_cases hne : v.d ⟨i, hi⟩ = value
      · simp [hne, collapseRuns, ih (i + 1) value calls (by omega)]
      · simp [hne, collapseRuns, ih (i + 1) _ _ (by omega)]
    · rw [dif_neg hi]
      have hd : v.lanes.drop i = [] := by
        apply List.drop_eq_nil_of_le
        simpa [Vector.lanes_length] using Nat.le_of_not_lt hi
      simp [hd, collapseRuns]

/-- The calls of `callWithValuesSorted`: lane 0, then the collapse of the other lanes. -/
theorem Vector.callWithValuesSorted_eq {α : Type} [DecidableEq α] {n : Nat}
    (v : Vector α (n + 1)) :
    v.callWithValuesSorted = v.d 0 :: collapseRuns (v.d 0) (v.lanes.drop 1) := by
  unfold Vector.callWithValuesSorted
  simp [callWithValuesSorted.loop_eq v (n + 1) 1 (v.d 0) [v.d 0] (by omega)]

theorem Vector.lanes_eq_cons {α : Type} {n : Nat} (v : Vector α (n + 1)) :
    v.lanes = v.d 0 :: v.lanes.drop 1 := by
  have := Vector.lanes_drop v 0 (Nat.succ_pos n)
  simpa using this

/-- On a list in non-decreasing order that starts at `value`, the collapse is strictly
increasing and has the same members. -/
theorem collapseRuns_sorted {α : Type} [LinearOrder α] (l : List α) :
    ∀ value : α, (value :: l).Sorted (· ≤ ·) →
      (value :: collapseRuns value l).Sorted (· < ·) ∧
      ∀ x, x ∈ value :: collapseRuns value l ↔ x ∈ value :: l := by
  induction l with
  | nil => intro value _; simp [collapseRuns]
  | cons y ys ih =>
    intro value h
    have hvy : value ≤ y := by
      have := List.rel_of_sorted_cons h y (List.mem_cons_self y ys)
      exact this
    have hys : (y :: ys).Sorted (· ≤ ·) := List.Sorted.of_cons h
    by_cases hy : y = value
    · subst hy
      have := ih y hys
      simp only [collapseRuns, ne_eq, not_true_eq_false, if_false]
      refine ⟨this.1, fun x => ?_⟩
      rw [this.2 x]
      simp
    · obtain ⟨hs, hm⟩ := ih y hys
      have hlt : value < y := lt_of_le_of_ne hvy (fun e => hy e.symm)
      simp only [collapseRuns, ne_eq, hy, not_false_eq_true, if_true]
      refine ⟨?_, fun x => ?_⟩
      · exact List.Sorted.cons hlt hs
      · rw [List.mem_cons, hm x, List.mem_cons (a := x) (b := value)]

/-- C1: masked write. After `r = a; r(m) = b`, every lane `i` of `r` is `b[i]` where
`m[i]` is true and `a[i]` where `m[i]` is false. -/
theorem masked_write_lanes {α : Type} {Size : Nat} (a b : Vector α Size) (m : Mask Size)
    (i : Fin Size) :
    ((a.masked m).assignOp b).d i = if m.k i = true then b.d i else a.d i := by
  simp [Vector.masked, WriteMaskedVector.assignOp, Vector.assign, blend, sse_cast]

/-- C2, as stated, fails: on the lanes `[3,1,3,2]` the callback is called four times, with
`3, 1, 3, 2` in that order, and not three times with `1, 2, 3`. -/
theorem callWithValuesSorted_unsorted_lanes :
    (Vector.mk ![3, 1, 3, 2] : Vector Nat 4).callWithValuesSorted = [3, 1, 3, 2] ∧
    (Vector.mk ![3, 1, 3, 2] : Vector Nat 4).callWithValuesSorted ≠ [1, 2, 3] := by
  decide

/-- C2, amended: for every vector whose lanes are in non-decreasing order, the values passed
to the callback are strictly increasing (so each is passed once) and are exactly the values
that occur in some lane. -/
theorem callWithValuesSorted_of_sorted_lanes {α : Type} [LinearOrder α] {n : Nat}
    (v : Vector α (n + 1)) (h : v.lanes.Sorted (· ≤ ·)) :
    v.callWithValuesSorted.Sorted (· < ·) ∧
    ∀ x, x ∈ v.callWithValuesSorted ↔ ∃ i, v.d i = x := by
  rw [Vector.lanes_eq_cons] at h
  obtain ⟨hs, hm⟩ := collapseRuns_sorted (v.lanes.drop 1) (v.d 0) h
  rw [Vector.callWithValuesSorted_eq]
  refine ⟨hs, fun x => ?_⟩
  have hx : x ∈ v.lanes ↔ ∃ i, v.d i = x := by
    simp only [Vector.lanes, List.mem_ofFn, Set.mem_range]
  rw [hm x, ← Vector.lanes_eq_cons]
  exact hx

/-- C2, amended, at the lanes `[1,2,3,3]`: three calls `1, 2, 3`. -/
theorem callWithValuesSorted_of_sorted_lanes_witness :
    (Vector.mk ![1, 2, 3, 3] : Vector Nat 4).lanes.Sorted (· ≤ ·) ∧
    (Vector.mk ![1, 2, 3, 3] : Vector Nat 4).callWithValuesSorted = [1, 2, 3] ∧
    (Vector.mk ![1, 2, 3, 3] : Vector Nat 4).callWithValuesSorted.Sorted (· < ·) :=
  ⟨by decide, by decide,
    (callWithValuesSorted_of_sorted_lanes (Vector.mk ![1, 2, 3, 3] : Vector Nat 4)
      (by decide)).1⟩

/-! ## Theorems: include/Vc/global.h -/

theorem autoExtras_tiers (env : Env) (m : Macros) : (autoExtras env m).tiers = m.tiers := by
  unfold autoExtras
  split_ifs <;> rfl

theorem overrideExtras_tiers (impl : Nat) (m : Macros) :
    (overrideExtras impl m).tiers = m.tiers := by
  unfold overrideExtras
  split_ifs <;> rfl

theorem vexCoding_tiers (env : Env) (m : Macros) : (vexCoding env m).tiers = m.tiers := by
  unfold vexCoding
  split_ifs <;> rfl

theorem errorCheck_tiers (m : Macros) : errorCheck m.tiers = errorCheck m := rfl

theorem VC_IMPL_tiers (m : Macros) : VC_IMPL m.tiers = VC_IMPL m := rfl

/-- The tier macros after lines 157-303 are those of the tier half of the block taken. -/
theorem selectImpl_tiers (env : Env) :
    (selectImpl env).tiers =
      match env.VC_IMPL with
      | none => (autoTiers env).tiers
      | some impl => (overrideTiers env impl).tiers := by
  unfold selectImpl
  rw [vexCoding_tiers]
  cases env.VC_IMPL with
  | none => exact autoExtras_tiers env _
  | some impl => exact overrideExtras_tiers impl _

/-- The resolver when the block for GCC < 4.3 is not entered. -/
theorem resolve_of_not_oldGcc (env : Env) (h : oldGccApplies env (selectImpl env) = false) :
    resolve env =
      match errorCheck (selectImpl env) with
      | some e => .error e
      | none =>
        .ok { macros := selectImpl env, warnings := [],
              VC_IMPL := VC_IMPL (selectImpl env),
              CurrentImplementation := CurrentImplementation (selectImpl env) } := by
  simp [resolve, oldGccDowngrade, h]

/-- A successful resolution is determined by the macro state at line 327. -/
theorem resolve_ok (env : Env) (r : Resolution) (h : resolve env = .ok r) :
    errorCheck (macrosAfterDowngrade env) = none ∧
    r.macros = macrosAfterDowngrade env ∧
    r.warnings = (oldGccDowngrade env (selectImpl env)).2 ∧
    r.VC_IMPL = VC_IMPL (macrosAfterDowngrade env) ∧
    r.CurrentImplementation = CurrentImplementation (macrosAfterDowngrade env) := by
  unfold resolve at h
  simp only [macrosAfterDowngrade]
  cases hc : errorCheck (oldGccDowngrade env (selectImpl env)).1 with
  | some e => simp [hc] at h
  | none =>
    simp only [hc] at h
    injection h with h
    subst h
    exact ⟨rfl, rfl, rfl, rfl, rfl⟩

/-- A failed resolution reports the error found at lines 328-332. -/
theorem resolve_error (env : Env) (e : BuildError) :
    resolve env = .error e ↔ errorCheck (macrosAfterDowngrade env) = some e := by
  unfold resolve
  simp only [macrosAfterDowngrade]
  cases hc : errorCheck (oldGccDowngrade env (selectImpl env)).1 with
  | some e2 => simp [hc]
  | none => simp [hc]

theorem macrosAfterDowngrade_of_not_oldGcc (env : Env)
    (h : oldGccApplies env (selectImpl env) = false) :
    macrosAfterDowngrade env = selectImpl env := by
  simp [macrosAfterDowngrade, oldGccDowngrade, h]

theorem familyEnabled_tiers (t : Implementation) (m : Macros) :
    familyEnabled t m.tiers ↔ familyEnabled t m := by
  unfold familyEnabled
  have h : ∀ t2, m.tiers.enabled t2 = m.enabled t2 := by intro t2; cases t2 <;> rfl
  simp only [h]
  exact Iff.rfl

/-- When the macro state of line 303 has Scalar defined, no other tier is defined. -/
theorem selectImpl_scalar (env : Env) (h : (selectImpl env).VC_IMPL_Scalar = true) :
    (selectImpl env).tiers = Macros.scalarOnly := by
  have hs := selectImpl_tiers env
  have h2 : (selectImpl env).tiers.VC_IMPL_Scalar = true := h
  rw [hs] at h2 ⊢
  cases hov : env.VC_IMPL with
  | none =>
    simp only [hov] at h2 ⊢
    revert h2
    cases h1 : env.__MIC__ <;> cases h2 : env.__AVX2__ <;> cases h3 : env.__AVX__ <;>
      first
      | (simp [autoTiers, Macros.undefined, Macros.tiers, Macros.scalarOnly, h1, h2, h3]; done)
      | (cases h4 : env.__SSE4_2__ <;> cases h5 : env.__SSE4_1__ <;>
          cases h6 : env.__SSSE3__ <;> cases h7 : env.__SSE3__ <;> cases h8 : env.__SSE2__ <;>
          simp [autoTiers, Macros.undefined, Macros.tiers, Macros.scalarOnly,
            h1, h2, h3, h4, h5, h6, h7, h8])
  | some impl =>
    simp only [hov] at h2 ⊢
    revert h2
    by_cases hcode : impl &&& Code.IMPL_MASK ∈ [Code.Scalar, Code.SSE, Code.SSE2, Code.SSE3,
        Code.SSSE3, Code.SSE4_1, Code.SSE4_2, Code.AVX, Code.AVX2, Code.MIC]
    · simp only [List.mem_cons, List.mem_singleton, List.not_mem_nil, or_false] at hcode
      rcases hcode with c | c | c | c | c | c | c | c | c | c <;>
        first
        | (simp [overrideTiers, c, Code.Scalar, Code.SSE, Code.SSE2, Code.SSE3, Code.SSSE3,
            Code.SSE4_1, Code.SSE4_2, Code.AVX, Code.AVX2, Code.MIC, Macros.undefined,
            Macros.tiers, Macros.scalarOnly]; done)
        | (cases hp : env.__POPCNT__ <;> cases h4 : env.__SSE4_2__ <;>
            cases h5 : env.__SSE4_1__ <;> cases h6 : env.__SSSE3__ <;>
            cases h7 : env.__SSE3__ <;> cases h8 : env.__SSE2__ <;>
            simp [overrideTiers, c, hp, h4, h5, h6, h7, h8, Code.Scalar, Code.SSE, Code.SSE2,
              Code.SSE3, Code.SSSE3, Code.SSE4_1, Code.SSE4_2, Code.AVX, Code.AVX2, Code.MIC,
              Macros.undefined, Macros.tiers, Macros.scalarOnly])
    · simp only [List.mem_cons, List.mem_singleton, not_or, List.not_mem_nil, or_false] at hcode
      obtain ⟨h1, h2, h3, h4, h5, h6, h7, h8, h9, h10⟩ := hcode
      by_cases hl : impl &&& Code.IMPL_MASK = 0 ∧ impl &&& Code.SSE4a ≠ 0
      · simp [overrideTiers, hl, Macros.undefined, Macros.tiers, Code.Scalar, Code.SSE,
          Code.SSE2, Code.SSE3, Code.SSSE3, Code.SSE4_1, Code.SSE4_2, Code.AVX, Code.AVX2,
          Code.MIC]
      · simp [overrideTiers, h1, h2, h3, h4, h5, h6, h7, h8, h9, h10, hl, Macros.undefined,
          Macros.tiers]

/-- C3, as stated, fails: with `__SSE3__` as the only feature macro defined and no override,
the most capable tier with a defined macro is SSE3, yet the resolver ends in the error of
line 331 instead of selecting it. -/
theorem autodetect_sse3_without_sse2 :
    ({ Env.bare with __SSE3__ := true } : Env).VC_IMPL = none ∧
    oldGccApplies { Env.bare with __SSE3__ := true }
      (selectImpl { Env.bare with __SSE3__ := true }) = false ∧
    mostCapable { Env.bare with __SSE3__ := true } = .SSE3Impl ∧
    resolve { Env.bare with __SSE3__ := true } = .error .sseWithoutSse2 := by
  refine ⟨rfl, rfl, rfl, rfl⟩

/-- C3, amended: with no override and the block for GCC < 4.3 not entered, the resolver
selects the most capable tier whose feature macro is defined (Scalar when none is), unless
auto-detection reaches the SSE tiers without `__SSE2__`; in that case it ends in the error
of line 331. -/
theorem autodetect_selects_most_capable (env : Env) (hno : env.VC_IMPL = none)
    (hdg : oldGccApplies env (selectImpl env) = false) :
    (sseProbedWithoutSse2 env = false →
      ∃ r, resolve env = .ok r ∧ r.VC_IMPL = some (mostCapable env)) ∧
    (sseProbedWithoutSse2 env = true → resolve env = .error .sseWithoutSse2) := by
  rw [resolve_of_not_oldGcc env hdg]
  have ht := selectImpl_tiers env
  rw [hno] at ht
  rw [← errorCheck_tiers, ← VC_IMPL_tiers, ht, errorCheck_tiers, VC_IMPL_tiers]
  cases h1 : env.__MIC__ <;> cases h2 : env.__AVX2__ <;> cases h3 : env.__AVX__ <;>
    first
    | (simp [autoTiers, Macros.undefined, errorCheck, VC_IMPL, mostCapable,
        sseProbedWithoutSse2, h1, h2, h3]; done)
    | (cases h4 : env.__SSE4_2__ <;> cases h5 : env.__SSE4_1__ <;>
        cases h6 : env.__SSSE3__ <;> cases h7 : env.__SSE3__ <;> cases h8 : env.__SSE2__ <;>
        simp [autoTiers, Macros.undefined, errorCheck, VC_IMPL, mostCapable,
          sseProbedWithoutSse2, h1, h2, h3, h4, h5, h6, h7, h8])

/-- C3, amended, at `__SSE4_1__`, `__SSE3__`, `__SSE2__`: SSE4.1 is selected. -/
theorem autodetect_selects_most_capable_witness :
    ∃ r, resolve { Env.bare with __SSE4_1__ := true, __SSE3__ := true, __SSE2__ := true }
        = .ok r ∧ r.VC_IMPL = some .SSE41Impl :=
  (autodetect_selects_most_capable
    { Env.bare with __SSE4_1__ := true, __SSE3__ := true, __SSE2__ := true } rfl rfl).1 rfl

/-- An override whose tier field is the code of tier `t`, with the block for GCC < 4.3 not
entered, resolves successfully to `t`. -/
theorem resolve_override_tier (env : Env) (impl : Nat) (t : Implementation)
    (hov : env.VC_IMPL = some impl) (ht : impl &&& Code.IMPL_MASK = t.code)
    (hdg : oldGccApplies env (selectImpl env) = false) :
    ∃ r, resolve env = .ok r ∧ r.VC_IMPL = some t := by
  rw [resolve_of_not_oldGcc env hdg]
  have hs := selectImpl_tiers env
  rw [hov] at hs
  rw [← errorCheck_tiers, ← VC_IMPL_tiers, hs, errorCheck_tiers, VC_IMPL_tiers]
  cases hp : env.__POPCNT__ <;> cases t <;>
    simp [overrideTiers, ht, hp, Implementation.code, Code.Scalar, Code.SSE, Code.SSE2,
      Code.SSE3, Code.SSSE3, Code.SSE4_1, Code.SSE4_2, Code.AVX, Code.AVX2, Code.MIC,
      Macros.undefined, errorCheck, VC_IMPL]

/-- C4: override precedence. When the override names a concrete tier (its tier field
`VC_IMPL & IMPL_MASK` is the code of that tier, whatever its extension bits) and the block
for GCC < 4.3 is not entered, resolution succeeds and `VC_IMPL` is exactly that tier,
whatever feature macros the compiler defines. -/
theorem override_selects_named_tier (env : Env) (impl : Nat) (t : Implementation)
    (hov : env.VC_IMPL = some impl) (ht : impl &&& Code.IMPL_MASK = t.code)
    (hdg : oldGccApplies env (selectImpl env) = false) :
    ∃ r, resolve env = .ok r ∧ r.VC_IMPL = some t :=
  resolve_override_tier env impl t hov ht hdg

/-- C4 at the override `SSE3 + FMA + XOP` on a compiler that defines `__AVX2__` and
`__AVX__`: SSE3 is selected. -/
theorem override_selects_named_tier_witness :
    ∃ r, resolve { Env.bare with VC_IMPL := some (Code.SSE3 + Code.FMA + Code.XOP),
                                 __AVX2__ := true, __AVX__ := true } = .ok r ∧
      r.VC_IMPL = some .SSE3Impl :=
  override_selects_named_tier
    { Env.bare with VC_IMPL := some (Code.SSE3 + Code.FMA + Code.XOP),
                    __AVX2__ := true, __AVX__ := true }
    (Code.SSE3 + Code.FMA + Code.XOP) .SSE3Impl rfl (by decide) rfl

/-- C5, as stated, fails: for the override SSE4_2 under GCC 4.2.0 resolution succeeds
with none of SSE4_2, SSE2 and the generic SSE macro enabled. -/
theorem override_sse42_old_gcc :
    ∃ r, resolve { Env.bare with VC_IMPL := some Code.SSE4_2, __GNUC__ := some (4, 2, 0) }
        = .ok r ∧
      r.macros.VC_IMPL_SSE4_2 = false ∧ r.macros.VC_IMPL_SSE2 = false ∧
      r.macros.VC_IMPL_SSE = false :=
  ⟨_, rfl, rfl, rfl, rfl⟩

/-- C5, amended: for an override naming tier `t`, the override cascade (the macro state at
line 303) enables, for an SSE-family `t`, the generic SSE macro and every SSE-family tier up
to `t`, and for AVX2 also AVX; when the block for GCC < 4.3 is not entered, resolution
succeeds and its final macro state has them enabled too. -/
theorem override_enables_lower_tiers (env : Env) (impl : Nat) (t : Implementation)
    (hov : env.VC_IMPL = some impl) (ht : impl &&& Code.IMPL_MASK = t.code) :
    familyEnabled t (selectImpl env) ∧
    (oldGccApplies env (selectImpl env) = false →
      ∃ r, resolve env = .ok r ∧ familyEnabled t r.macros) := by
  have hs := selectImpl_tiers env
  rw [hov] at hs
  have key : familyEnabled t (selectImpl env) := by
    rw [← familyEnabled_tiers, hs, familyEnabled_tiers]
    cases hp : env.__POPCNT__ <;> cases t <;>
      simp [overrideTiers, ht, hp, Implementation.code, Code.Scalar, Code.SSE, Code.SSE2,
        Code.SSE3, Code.SSSE3, Code.SSE4_1, Code.SSE4_2, Code.AVX, Code.AVX2, Code.MIC,
        Macros.undefined, familyEnabled, Implementation.isSse] <;>
      intro t2 <;> cases t2 <;> simp [Macros.enabled, Implementation.toNat]
  refine ⟨key, fun hdg => ?_⟩
  obtain ⟨r, hr, _⟩ := resolve_override_tier env impl t hov ht hdg
  refine ⟨r, hr, ?_⟩
  rw [(resolve_ok env r hr).2.1, macrosAfterDowngrade_of_not_oldGcc env hdg]
  exact key

/-- C5, amended, at the override SSE4_2 with no compiler macro defined: the generic SSE
macro and SSE2 are enabled by the cascade and in the final state. -/
theorem override_enables_lower_tiers_witness :
    ((selectImpl { Env.bare with VC_IMPL := some Code.SSE4_2 }).VC_IMPL_SSE = true ∧
      (selectImpl { Env.bare with VC_IMPL := some Code.SSE4_2 }).enabled .SSE2Impl = true) ∧
    ∃ r, resolve { Env.bare with VC_IMPL := some Code.SSE4_2 } = .ok r ∧
      familyEnabled .SSE42Impl r.macros :=
  ⟨⟨((override_enables_lower_tiers { Env.bare with VC_IMPL := some Code.SSE4_2 }
        Code.SSE4_2 .SSE42Impl rfl (by decide)).1.1 rfl).1,
    ((override_enables_lower_tiers { Env.bare with VC_IMPL := some Code.SSE4_2 }
        Code.SSE4_2 .SSE42Impl rfl (by decide)).1.1 rfl).2 .SSE2Impl rfl (by decide)⟩,
   (override_enables_lower_tiers { Env.bare with VC_IMPL := some Code.SSE4_2 }
        Code.SSE4_2 .SSE42Impl rfl (by decide)).2 rfl⟩

/-- C6: whenever the macro state at line 327 has the generic SSE macro without SSE2, the
build ends in the error "SSE requested but no SSE2 support. Vc needs at least SSE2!"; this
is the case for the generic override `VC_IMPL=SSE` when `__SSE2__` is not defined and the
block for GCC < 4.3 is not entered; and every successful resolution with the SSE macro
enabled has SSE2 enabled. -/
theorem sse_without_sse2_is_error (env : Env) :
    ((macrosAfterDowngrade env).VC_IMPL_SSE = true →
      (macrosAfterDowngrade env).VC_IMPL_SSE2 = false →
      resolve env = .error .sseWithoutSse2) ∧
    (∀ impl, env.VC_IMPL = some impl → impl &&& Code.IMPL_MASK = Code.SSE →
      env.__SSE2__ = false → oldGccApplies env (selectImpl env) = false →
      resolve env = .error .sseWithoutSse2) ∧
    (∀ r, resolve env = .ok r → r.macros.VC_IMPL_SSE = true →
      r.macros.VC_IMPL_SSE2 = true) := by
  have part1 : (macrosAfterDowngrade env).VC_IMPL_SSE = true →
      (macrosAfterDowngrade env).VC_IMPL_SSE2 = false →
      resolve env = .error .sseWithoutSse2 := by
    intro h1 h2
    rw [resolve_error]
    simp [errorCheck, h1, h2]
  refine ⟨part1, ?_, ?_⟩
  · intro impl hov hc hs2 hdg
    apply part1
    · rw [macrosAfterDowngrade_of_not_oldGcc env hdg]
      have hs := selectImpl_tiers env
      rw [hov] at hs
      have : (selectImpl env).VC_IMPL_SSE = (selectImpl env).tiers.VC_IMPL_SSE := rfl
      rw [this, hs]
      simp [overrideTiers, hc, Code.Scalar, Code.SSE, Code.SSE2,
        Code.SSE3, Code.SSSE3, Code.SSE4_1, Code.SSE4_2, Code.AVX, Code.AVX2, Code.MIC,
        Macros.undefined]
      split_ifs <;> rfl
    · rw [macrosAfterDowngrade_of_not_oldGcc env hdg]
      have hs := selectImpl_tiers env
      rw [hov] at hs
      have : (selectImpl env).VC_IMPL_SSE2 = (selectImpl env).tiers.VC_IMPL_SSE2 := rfl
      rw [this, hs]
      simp [overrideTiers, hc, hs2, Code.Scalar, Code.SSE, Code.SSE2,
        Code.SSE3, Code.SSSE3, Code.SSE4_1, Code.SSE4_2, Code.AVX, Code.AVX2, Code.MIC,
        Macros.undefined]
      split_ifs <;> rfl
  · intro r hr hsse
    obtain ⟨hc, hm, _⟩ := resolve_ok env r hr
    rw [hm] at hsse ⊢
    cases h2 : (macrosAfterDowngrade env).VC_IMPL_SSE2 with
    | true => rfl
    | false => simp [errorCheck, hsse, h2] at hc

/-- C6 at the generic override `VC_IMPL=SSE`: without `__SSE2__` the error of line 331,
with `__SSE2__` a successful resolution that has SSE2 enabled. -/
theorem sse_without_sse2_is_error_witness :
    resolve { Env.bare with VC_IMPL := some Code.SSE } = .error .sseWithoutSse2 ∧
    resolve { Env.bare with VC_IMPL := some Code.SSE, __SSE4_1__ := true }
      = .error .sseWithoutSse2 ∧
    ∃ r, resolve { Env.bare with VC_IMPL := some Code.SSE, __SSE2__ := true } = .ok r ∧
      r.macros.VC_IMPL_SSE = true ∧ r.macros.VC_IMPL_SSE2 = true :=
  ⟨(sse_without_sse2_is_error { Env.bare with VC_IMPL := some Code.SSE }).1 rfl rfl,
   (sse_without_sse2_is_error { Env.bare with VC_IMPL := some Code.SSE, __SSE4_1__ := true }).2.1
      Code.SSE rfl (by decide) rfl rfl,
   _, rfl, rfl,
   (sse_without_sse2_is_error
      { Env.bare with VC_IMPL := some Code.SSE, __SSE2__ := true }).2.2 _ rfl rfl⟩

/-- C7: for an override whose tier field is none of the ten recognised codes and which is
not the legacy SSE4a-only form, resolution (the block for GCC < 4.3 not entered) ends in the
error "No suitable Vc implementation was selected! Probably VC_IMPL was set to an invalid
value."; in particular it does not succeed with Scalar or any other tier. -/
theorem invalid_override_is_error (env : Env) (impl : Nat)
    (hov : env.VC_IMPL = some impl)
    (hcode : impl &&& Code.IMPL_MASK ∉ [Code.Scalar, Code.SSE, Code.SSE2, Code.SSE3,
      Code.SSSE3, Code.SSE4_1, Code.SSE4_2, Code.AVX, Code.AVX2, Code.MIC])
    (hlegacy : ¬ (impl &&& Code.IMPL_MASK = 0 ∧ impl &&& Code.SSE4a ≠ 0))
    (hdg : oldGccApplies env (selectImpl env) = false) :
    resolve env = .error .noSuitableImplementation ∧ ∀ r, resolve env ≠ .ok r := by
  have h : resolve env = .error .noSuitableImplementation := by
    rw [resolve_error, macrosAfterDowngrade_of_not_oldGcc env hdg]
    have hs := selectImpl_tiers env
    rw [hov] at hs
    rw [← errorCheck_tiers, hs, errorCheck_tiers]
    simp only [List.mem_cons, List.mem_singleton, not_or, List.not_mem_nil, or_false] at hcode
    obtain ⟨h1, h2, h3, h4, h5, h6, h7, h8, h9, h10⟩ := hcode
    simp [overrideTiers, h1, h2, h3, h4, h5, h6, h7, h8, h9, h10, hlegacy, Macros.undefined,
      errorCheck]
  refine ⟨h, fun r hr => ?_⟩
  rw [h] at hr
  cases hr

/-- C7 at the override `0x00B00000 + FMA`, whose tier field is one past MIC. -/
theorem invalid_override_is_error_witness :
    resolve { Env.bare with VC_IMPL := some (0x00B00000 + Code.FMA), __AVX__ := true }
      = .error .noSuitableImplementation :=
  (invalid_override_is_error
    { Env.bare with VC_IMPL := some (0x00B00000 + Code.FMA), __AVX__ := true }
    (0x00B00000 + Code.FMA) rfl (by decide) (by decide) rfl).1

/-- For a GCC with minor version and patch level below 256, `VC_GCC < 0x40300` says that
the version is below 4.3. -/
theorem VC_GCC_lt_iff (env : Env) (major minor patchlevel : Nat)
    (hicc : env.__INTEL_COMPILER = false) (hopen : env.__OPENCC__ = false)
    (hclang : env.__clang__ = false) (hgnu : env.__GNUC__ = some (major, minor, patchlevel))
    (hminor : minor < 256) (hpatch : patchlevel < 256) :
    ∃ gcc, VC_GCC env = some gcc ∧
      (gcc < 0x40300 ↔ major < 4 ∨ (major = 4 ∧ minor < 3)) := by
  refine ⟨major * 0x10000 + minor * 0x100 + patchlevel, ?_, ?_⟩
  · simp [VC_GCC, hicc, hopen, hclang, hgnu]
  · omega

/-- The block for GCC < 4.3, when entered, leaves Scalar alone and resolution succeeds. -/
theorem resolve_oldGcc (env : Env) (gcc : Nat) (hg : VC_GCC env = some gcc)
    (hlt : gcc < 0x40300) (hns : (selectImpl env).VC_IMPL_Scalar = false) :
    ∃ r, resolve env = .ok r ∧ r.macros = Macros.scalarOnly ∧
      r.VC_IMPL = some .ScalarImpl ∧
      (env.VC_DONT_WARN_OLD_GCC = false → r.warnings = [Warning.oldGcc]) ∧
      (env.VC_DONT_WARN_OLD_GCC = true → r.warnings = []) := by
  have happ : oldGccApplies env (selectImpl env) = true := by
    simp [oldGccApplies, hg, hns]
    exact hlt
  have hm : oldGccDowngrade env (selectImpl env) =
      (Macros.scalarOnly, if env.VC_DONT_WARN_OLD_GCC then [] else [Warning.oldGcc]) := by
    simp [oldGccDowngrade, happ, Macros.scalarOnly]
  refine ⟨{ macros := Macros.scalarOnly,
            warnings := if env.VC_DONT_WARN_OLD_GCC then [] else [Warning.oldGcc],
            VC_IMPL := VC_IMPL Macros.scalarOnly,
            CurrentImplementation := CurrentImplementation Macros.scalarOnly }, ?_, rfl, rfl, ?_, ?_⟩
  · simp [resolve, hm]
    rfl
  · intro h; simp [h]
  · intro h; simp [h]

/-- C8: for every GCC with `VC_GCC < 0x40300` (a version below 4.3) and every
configuration, auto-detected or overridden, that has not defined `VC_IMPL_Scalar` by line
303, resolution succeeds with Scalar as the only macro left defined (no other tier, none of
FMA4, XOP, F16C, POPCNT, SSE4a, FMA, no `VC_USE_VEX_CODING`), selects `ScalarImpl`, and
issues the warning of line 307 exactly when `VC_DONT_WARN_OLD_GCC` is not defined. -/
theorem old_gcc_downgrades_to_scalar (env : Env) (gcc : Nat) (hg : VC_GCC env = some gcc)
    (hlt : gcc < 0x40300) (hns : (selectImpl env).VC_IMPL_Scalar = false) :
    ∃ r, resolve env = .ok r ∧ r.macros = Macros.scalarOnly ∧
      r.VC_IMPL = some .ScalarImpl ∧
      (env.VC_DONT_WARN_OLD_GCC = false → r.warnings = [Warning.oldGcc]) ∧
      (env.VC_DONT_WARN_OLD_GCC = true → r.warnings = []) :=
  resolve_oldGcc env gcc hg hlt hns

/-- C8 under GCC 4.2.4 with `__AVX__`, `__SSE2__` and `__FMA__` defined and no override. -/
theorem old_gcc_downgrades_to_scalar_witness :
    ∃ r, resolve { Env.bare with __GNUC__ := some (4, 2, 4), __AVX__ := true,
                                 __SSE2__ := true, __FMA__ := true } = .ok r ∧
      r.macros = Macros.scalarOnly ∧ r.VC_IMPL = some .ScalarImpl ∧
      r.warnings = [Warning.oldGcc] :=
  match old_gcc_downgrades_to_scalar
      { Env.bare with __GNUC__ := some (4, 2, 4), __AVX__ := true,
                      __SSE2__ := true, __FMA__ := true }
      0x40204 rfl (by decide) rfl with
  | ⟨r, hr, hm, hi, hw, _⟩ => ⟨r, hr, hm, hi, hw rfl⟩

/-- C9, as stated, fails: GCC 4.4.5 has `VC_MM256_MASKSTORE_WRONG_MASK_TYPE` set, yet with
`__SSE2__` defined the resolver selects SSE2, not Scalar. -/
theorem maskstore_quirk_gcc_445 :
    VC_MM256_MASKSTORE_WRONG_MASK_TYPE
      { Env.bare with __GNUC__ := some (4, 4, 5), __SSE2__ := true } = true ∧
    ∃ r, resolve { Env.bare with __GNUC__ := some (4, 4, 5), __SSE2__ := true } = .ok r ∧
      r.VC_IMPL = some .SSE2Impl :=
  ⟨rfl, _, rfl, rfl⟩

/-- `VC_MM256_MASKSTORE_WRONG_MASK_TYPE` is defined exactly for a GCC with
`VC_GCC <= 0x40405` or `0x40500 <= VC_GCC <= 0x40502`, other than Ubuntu's patched 4.5.2. -/
theorem maskstore_quirk_iff (env : Env) :
    VC_MM256_MASKSTORE_WRONG_MASK_TYPE env = true ↔
      ∃ gcc, VC_GCC env = some gcc ∧
        (gcc ≤ 0x40405 ∨ (0x40500 ≤ gcc ∧ gcc ≤ 0x40502)) ∧
        ¬ (gcc = 0x40502 ∧ env.__GNUC_UBUNTU_VERSION__ = some 0xb0408) := by
  unfold VC_MM256_MASKSTORE_WRONG_MASK_TYPE
  cases hg : VC_GCC env with
  | none => simp
  | some gcc =>
    simp only [Option.some.injEq, exists_eq_left']
    simp only [Bool.and_eq_true, Bool.or_eq_true, decide_eq_true_eq, Bool.not_eq_true',
      Bool.and_eq_false_iff, beq_eq_false_iff_ne, ne_eq, not_and_or, ge_iff_le]

/-- C9, amended: `VC_MM256_MASKSTORE_WRONG_MASK_TYPE` is set exactly for a GCC with
`VC_GCC <= 0x40405` or `0x40500 <= VC_GCC <= 0x40502`, other than Ubuntu's patched 4.5.2;
resolution does not depend on `__GNUC_UBUNTU_VERSION__`; when the macro is set, the resolver
ends on Scalar if `VC_GCC < 0x40300`, and from GCC 4.3 on a successful resolution keeps the
macro state of line 303 and selects the tier that state gives. -/
theorem maskstore_quirk_downgrade (env : Env) :
    (VC_MM256_MASKSTORE_WRONG_MASK_TYPE env = true ↔
      ∃ gcc, VC_GCC env = some gcc ∧
        (gcc ≤ 0x40405 ∨ (0x40500 ≤ gcc ∧ gcc ≤ 0x40502)) ∧
        ¬ (gcc = 0x40502 ∧ env.__GNUC_UBUNTU_VERSION__ = some 0xb0408)) ∧
    (∀ u, resolve { env with __GNUC_UBUNTU_VERSION__ := u } = resolve env) ∧
    (VC_MM256_MASKSTORE_WRONG_MASK_TYPE env = true →
      ∃ gcc, VC_GCC env = some gcc ∧
        (gcc < 0x40300 → ∃ r, resolve env = .ok r ∧ r.VC_IMPL = some .ScalarImpl) ∧
        (0x40300 ≤ gcc → ∀ r, resolve env = .ok r →
          r.macros = selectImpl env ∧ r.VC_IMPL = VC_IMPL (selectImpl env))) := by
  refine ⟨maskstore_quirk_iff env, fun u => rfl, fun hq => ?_⟩
  obtain ⟨gcc, hg, _, _⟩ := (maskstore_quirk_iff env).mp hq
  refine ⟨gcc, hg, ?_, ?_⟩
  · intro hlt
    cases hs : (selectImpl env).VC_IMPL_Scalar with
    | false =>
      obtain ⟨r, hr, _, hi, _⟩ := resolve_oldGcc env gcc hg hlt hs
      exact ⟨r, hr, hi⟩
    | true =>
      have hdg : oldGccApplies env (selectImpl env) = false := by
        simp [oldGccApplies, hg, hs]
      have ht := selectImpl_scalar env hs
      rw [resolve_of_not_oldGcc env hdg, ← errorCheck_tiers, ← VC_IMPL_tiers, ht]
      exact ⟨_, rfl, rfl⟩
  · intro hge r hr
    have hdg : oldGccApplies env (selectImpl env) = false := by
      simp [oldGccApplies, hg]
      intro h
      omega
    obtain ⟨_, hm, _, hi, _⟩ := resolve_ok env r hr
    rw [macrosAfterDowngrade_of_not_oldGcc env hdg] at hm hi
    exact ⟨hm, hi⟩

/-- C9, amended, under GCC 4.4.5 with `__SSE2__` defined: the macro is set, and under
Ubuntu's patched GCC 4.5.2 it is not. -/
theorem maskstore_quirk_downgrade_witness :
    VC_MM256_MASKSTORE_WRONG_MASK_TYPE
      { Env.bare with __GNUC__ := some (4, 4, 5), __SSE2__ := true } = true ∧
    VC_MM256_MASKSTORE_WRONG_MASK_TYPE
      { Env.bare with __GNUC__ := some (4, 5, 2),
                      __GNUC_UBUNTU_VERSION__ := some 0xb0408 } ≠ true ∧
    ∃ gcc, VC_GCC { Env.bare with __GNUC__ := some (4, 4, 5), __SSE2__ := true } = some gcc ∧
      (gcc < 0x40300 →
        ∃ r, resolve { Env.bare with __GNUC__ := some (4, 4, 5), __SSE2__ := true } = .ok r ∧
          r.VC_IMPL = some .ScalarImpl) ∧
      (0x40300 ≤ gcc →
        ∀ r, resolve { Env.bare with __GNUC__ := some (4, 4, 5), __SSE2__ := true } = .ok r →
          r.macros = selectImpl { Env.bare with __GNUC__ := some (4, 4, 5), __SSE2__ := true } ∧
          r.VC_IMPL =
            VC_IMPL (selectImpl { Env.bare with __GNUC__ := some (4, 4, 5), __SSE2__ := true })) :=
  ⟨(maskstore_quirk_downgrade
      { Env.bare with __GNUC__ := some (4, 4, 5), __SSE2__ := true }).1.mpr
      ⟨0x40405, rfl, by decide, by decide⟩,
   fun h =>
    match (maskstore_quirk_downgrade
      { Env.bare with __GNUC__ := some (4, 5, 2),
                      __GNUC_UBUNTU_VERSION__ := some 0xb0408 }).1.mp h with
    | ⟨_, hg, _, hn⟩ => hn ⟨(Option.some.inj hg).symm, rfl⟩,
   (maskstore_quirk_downgrade
      { Env.bare with __GNUC__ := some (4, 4, 5), __SSE2__ := true }).2.2 rfl⟩

theorem overrideTiers_extras (env : Env) (impl : Nat) :
    (overrideTiers env impl).VC_IMPL_XOP = false ∧
    (overrideTiers env impl).VC_IMPL_FMA4 = false ∧
    (overrideTiers env impl).VC_IMPL_F16C = false ∧
    (overrideTiers env impl).VC_IMPL_SSE4a = false ∧
    (overrideTiers env impl).VC_IMPL_FMA = false ∧
    (overrideTiers env impl).VC_IMPL_POPCNT
      = (decide (impl &&& Code.IMPL_MASK = Code.MIC) && env.__POPCNT__) := by
  by_cases hcode : impl &&& Code.IMPL_MASK ∈ [Code.Scalar, Code.SSE, Code.SSE2, Code.SSE3,
      Code.SSSE3, Code.SSE4_1, Code.SSE4_2, Code.AVX, Code.AVX2, Code.MIC]
  · simp only [List.mem_cons, List.mem_singleton, List.not_mem_nil, or_false] at hcode
    rcases hcode with c | c | c | c | c | c | c | c | c | c <;>
      first
      | (simp [overrideTiers, c, Code.Scalar, Code.SSE, Code.SSE2, Code.SSE3, Code.SSSE3,
          Code.SSE4_1, Code.SSE4_2, Code.AVX, Code.AVX2, Code.MIC, Macros.undefined]; done)
      | (cases hp : env.__POPCNT__ <;> cases h4 : env.__SSE4_2__ <;>
          cases h5 : env.__SSE4_1__ <;> cases h6 : env.__SSSE3__ <;>
          cases h7 : env.__SSE3__ <;> cases h8 : env.__SSE2__ <;>
          simp [overrideTiers, c, hp, h4, h5, h6, h7, h8, Code.Scalar, Code.SSE, Code.SSE2,
            Code.SSE3, Code.SSSE3, Code.SSE4_1, Code.SSE4_2, Code.AVX, Code.AVX2, Code.MIC,
            Macros.undefined])
  · simp only [List.mem_cons, List.mem_singleton, not_or, List.not_mem_nil, or_false] at hcode
    obtain ⟨h1, h2, h3, h4, h5, h6, h7, h8, h9, h10⟩ := hcode
    by_cases hl : impl &&& Code.IMPL_MASK = 0 ∧ impl &&& Code.SSE4a ≠ 0
    · simp [overrideTiers, hl, Macros.undefined, Code.Scalar, Code.SSE,
        Code.SSE2, Code.SSE3, Code.SSSE3, Code.SSE4_1, Code.SSE4_2, Code.AVX, Code.AVX2,
        Code.MIC]
    · simp [overrideTiers, h1, h2, h3, h4, h5, h6, h7, h8, h9, h10, hl, Macros.undefined]

theorem overrideExtras_fields (impl : Nat) (m : Macros) :
    (overrideExtras impl m).VC_IMPL_XOP = (m.VC_IMPL_XOP || decide (impl &&& Code.XOP ≠ 0)) ∧
    (overrideExtras impl m).VC_IMPL_FMA4 = (m.VC_IMPL_FMA4 || decide (impl &&& Code.FMA4 ≠ 0)) ∧
    (overrideExtras impl m).VC_IMPL_F16C = (m.VC_IMPL_F16C || decide (impl &&& Code.F16C ≠ 0)) ∧
    (overrideExtras impl m).VC_IMPL_SSE4a
      = (m.VC_IMPL_SSE4a || decide (impl &&& Code.SSE4a ≠ 0)) ∧
    (overrideExtras impl m).VC_IMPL_FMA = (m.VC_IMPL_FMA || decide (impl &&& Code.FMA ≠ 0)) ∧
    (overrideExtras impl m).VC_IMPL_POPCNT
      = (m.VC_IMPL_POPCNT || decide (impl &&& Code.POPCNT ≠ 0)) := by
  unfold overrideExtras
  split_ifs <;> simp [*]

theorem vexCoding_fields (env : Env) (m : Macros) :
    (vexCoding env m).VC_IMPL_XOP = m.VC_IMPL_XOP ∧
    (vexCoding env m).VC_IMPL_FMA4 = m.VC_IMPL_FMA4 ∧
    (vexCoding env m).VC_IMPL_F16C = m.VC_IMPL_F16C ∧
    (vexCoding env m).VC_IMPL_SSE4a = m.VC_IMPL_SSE4a ∧
    (vexCoding env m).VC_IMPL_FMA = m.VC_IMPL_FMA ∧
    (vexCoding env m).VC_IMPL_POPCNT = m.VC_IMPL_POPCNT := by
  unfold vexCoding
  split_ifs <;> exact ⟨rfl, rfl, rfl, rfl, rfl, rfl⟩

theorem tierTerm_le (m : Macros) (t : Nat) (h : tierTerm m = some t) : t ≤ 8 := by
  unfold tierTerm at h
  split_ifs at h
  · cases h; decide
  · cases h; decide
  · cases hv : VC_IMPL m with
    | none => simp [hv] at h
    | some i =>
      simp [hv] at h
      subst h
      cases i <;> decide

theorem extraInstructions_of_add (m : Macros) (t : Nat) (ht : t ≤ 8) :
    (ImplementationT.of (t + extraTerms m)).ExtraInstructions = extraTerms m := by
  unfold extraTerms ImplementationT.of
  cases m.VC_IMPL_SSE4a <;> cases m.VC_IMPL_XOP <;> cases m.VC_IMPL_FMA4 <;>
    cases m.VC_IMPL_POPCNT <;> cases m.VC_IMPL_FMA <;>
    interval_cases t <;> rfl

theorem extraTerms_bits (m : Macros) :
    (extraTerms m &&& Sse4aInstructions ≠ 0 ↔ m.VC_IMPL_SSE4a = true) ∧
    (extraTerms m &&& FmaInstructions ≠ 0 ↔ m.VC_IMPL_FMA = true) ∧
    (extraTerms m &&& PopcntInstructions ≠ 0 ↔ m.VC_IMPL_POPCNT = true) ∧
    (extraTerms m &&& XopInstructions ≠ 0 ↔
      m.VC_IMPL_XOP = true ∧ m.VC_IMPL_SSE4a = true) ∧
    (extraTerms m &&& Fma4Instructions ≠ 0 ↔
      m.VC_IMPL_FMA4 = true ∧ m.VC_IMPL_XOP = true ∧ m.VC_IMPL_SSE4a = true) := by
  unfold extraTerms
  cases m.VC_IMPL_SSE4a <;> cases m.VC_IMPL_XOP <;> cases m.VC_IMPL_FMA4 <;>
    cases m.VC_IMPL_POPCNT <;> cases m.VC_IMPL_FMA <;> decide

theorem selectImpl_override_extras (env : Env) (impl : Nat) (hov : env.VC_IMPL = some impl) :
    ((selectImpl env).VC_IMPL_XOP = true ↔ impl &&& Code.XOP ≠ 0) ∧
    ((selectImpl env).VC_IMPL_FMA4 = true ↔ impl &&& Code.FMA4 ≠ 0) ∧
    ((selectImpl env).VC_IMPL_F16C = true ↔ impl &&& Code.F16C ≠ 0) ∧
    ((selectImpl env).VC_IMPL_SSE4a = true ↔ impl &&& Code.SSE4a ≠ 0) ∧
    ((selectImpl env).VC_IMPL_FMA = true ↔ impl &&& Code.FMA ≠ 0) ∧
    ((selectImpl env).VC_IMPL_POPCNT = true ↔
      impl &&& Code.POPCNT ≠ 0 ∨
        (impl &&& Code.IMPL_MASK = Code.MIC ∧ env.__POPCNT__ = true)) := by
  have hsel : selectImpl env = vexCoding env (overrideExtras impl (overrideTiers env impl)) := by
    simp [selectImpl, hov, overrideCascade]
  obtain ⟨v1, v2, v3, v4, v5, v6⟩ := vexCoding_fields env (overrideExtras impl (overrideTiers env impl))
  obtain ⟨e1, e2, e3, e4, e5, e6⟩ := overrideExtras_fields impl (overrideTiers env impl)
  obtain ⟨t1, t2, t3, t4, t5, t6⟩ := overrideTiers_extras env impl
  rw [hsel, v1, v2, v3, v4, v5, v6, e1, e2, e3, e4, e5, e6, t1, t2, t3, t4, t5, t6]
  simp
  tauto

theorem code_eq_MIC (t : Implementation) : t.code = Code.MIC ↔ t = .MICImpl := by
  cases t <;> decide

/-- C10, as stated, fails: for the override `AVX + XOP` (tier AVX, requested extras
`{XOP}`) the resolved `ExtraInstructions` is 0 and does not contain `XopInstructions`. -/
theorem override_xop_without_sse4a :
    (Code.AVX + Code.XOP) &&& Code.XOP ≠ 0 ∧
    ∃ r cur, resolve { Env.bare with VC_IMPL := some (Code.AVX + Code.XOP) } = .ok r ∧
      r.CurrentImplementation = some cur ∧ cur.ExtraInstructions = 0 ∧
      cur.ExtraInstructions &&& XopInstructions = 0 :=
  ⟨by decide, _, _, rfl, rfl, rfl, rfl⟩

/-- C10, amended: for an override naming tier `t` with extension bits, the block for
GCC < 4.3 not entered, `CurrentImplementation::ExtraInstructions` contains
`Sse4aInstructions` exactly when SSE4a is requested, `FmaInstructions` exactly when FMA is,
`PopcntInstructions` exactly when POPCNT is requested or the tier is MIC and the compiler
defines `__POPCNT__`, `XopInstructions` exactly when XOP and SSE4a are both requested, and
`Fma4Instructions` exactly when FMA4, XOP and SSE4a are all requested. -/
theorem override_extra_instructions (env : Env) (impl : Nat) (t : Implementation)
    (hov : env.VC_IMPL = some impl) (ht : impl &&& Code.IMPL_MASK = t.code)
    (hdg : oldGccApplies env (selectImpl env) = false) :
    ∃ r cur, resolve env = .ok r ∧ r.CurrentImplementation = some cur ∧
      (cur.ExtraInstructions &&& Sse4aInstructions ≠ 0 ↔ impl &&& Code.SSE4a ≠ 0) ∧
      (cur.ExtraInstructions &&& FmaInstructions ≠ 0 ↔ impl &&& Code.FMA ≠ 0) ∧
      (cur.ExtraInstructions &&& PopcntInstructions ≠ 0 ↔
        impl &&& Code.POPCNT ≠ 0 ∨ (t = .MICImpl ∧ env.__POPCNT__ = true)) ∧
      (cur.ExtraInstructions &&& XopInstructions ≠ 0 ↔
        impl &&& Code.XOP ≠ 0 ∧ impl &&& Code.SSE4a ≠ 0) ∧
      (cur.ExtraInstructions &&& Fma4Instructions ≠ 0 ↔
        impl &&& Code.FMA4 ≠ 0 ∧ impl &&& Code.XOP ≠ 0 ∧ impl &&& Code.SSE4a ≠ 0) := by
  obtain ⟨r, hr, hi⟩ := resolve_override_tier env impl t hov ht hdg
  obtain ⟨_, hm, _, hvi, hcur⟩ := resolve_ok env r hr
  rw [macrosAfterDowngrade_of_not_oldGcc env hdg] at hm hvi hcur
  rw [hi] at hvi
  have htt : ∃ tt, tierTerm (selectImpl env) = some tt := by
    unfold tierTerm
    split_ifs
    · exact ⟨_, rfl⟩
    · exact ⟨_, rfl⟩
    · rw [← hvi]; exact ⟨_, rfl⟩
  obtain ⟨tt, htt⟩ := htt
  have hle := tierTerm_le _ _ htt
  refine ⟨r, ImplementationT.of (tt + extraTerms (selectImpl env)), hr, ?_, ?_⟩
  · rw [hcur]
    simp [CurrentImplementation, currentFeatures, htt]
  · rw [extraInstructions_of_add _ _ hle]
    obtain ⟨b1, b2, b3, b4, b5⟩ := extraTerms_bits (selectImpl env)
    obtain ⟨s1, s2, s3, s4, s5, s6⟩ := selectImpl_override_extras env impl hov
    rw [b1, b2, b3, b4, b5, s1, s2, s4, s5, s6, ht, code_eq_MIC]
    exact ⟨Iff.rfl, Iff.rfl, Iff.rfl, Iff.rfl, Iff.rfl⟩

/-- C10, amended, at the override `SSE4_2 + SSE4a + XOP + POPCNT`: XOP is recorded, being
requested together with SSE4a. -/
theorem override_extra_instructions_witness :
    ∃ r cur,
      resolve { Env.bare with
        VC_IMPL := some (Code.SSE4_2 + Code.SSE4a + Code.XOP + Code.POPCNT) } = .ok r ∧
      r.CurrentImplementation = some cur ∧
      cur.ExtraInstructions &&& XopInstructions ≠ 0 ∧
      cur.ExtraInstructions &&& PopcntInstructions ≠ 0 :=
  match override_extra_instructions
      { Env.bare with VC_IMPL := some (Code.SSE4_2 + Code.SSE4a + Code.XOP + Code.POPCNT) }
      (Code.SSE4_2 + Code.SSE4a + Code.XOP + Code.POPCNT) .SSE42Impl rfl (by decide) rfl with
  | ⟨r, cur, hr, hc, _, _, hp, hx, _⟩ =>
    ⟨r, cur, hr, hc, hx.2 ⟨by decide, by decide⟩, hp.2 (Or.inl (by decide))⟩

/-- When the checks of lines 328-332 pass, the chain of lines 470-497 defines `VC_IMPL`. -/
theorem VC_IMPL_of_errorCheck (m : Macros) (h : errorCheck m = none) :
    ∃ t, VC_IMPL m = some t := by
  unfold errorCheck at h
  unfold VC_IMPL
  cases h1 : m.VC_IMPL_Scalar
  · cases h2 : m.VC_IMPL_MIC
    · cases h3 : m.VC_IMPL_AVX2
      · cases h4 : m.VC_IMPL_AVX
        · cases h5 : m.VC_IMPL_SSE
          · simp [h1, h2, h4, h5] at h
          · cases h6 : m.VC_IMPL_SSE2
            · simp [h1, h2, h4, h5, h6] at h
            · simp only [Bool.false_eq_true, if_false, if_true]
              split_ifs <;> exact ⟨_, rfl⟩
        · simp
      · simp
    · simp
  · simp

/-- When the macro state at line 327 has Scalar defined, no other tier is defined. -/
theorem macrosAfterDowngrade_scalar (env : Env)
    (h : (macrosAfterDowngrade env).VC_IMPL_Scalar = true) :
    (macrosAfterDowngrade env).tiers = Macros.scalarOnly := by
  cases hdg : oldGccApplies env (selectImpl env)
  · rw [macrosAfterDowngrade_of_not_oldGcc env hdg] at h ⊢
    exact selectImpl_scalar env h
  · simp [macrosAfterDowngrade, oldGccDowngrade, hdg, Macros.tiers, Macros.scalarOnly]

/-- C11: every resolution that does not end in a build error defines `VC_IMPL`, as exactly
one of the nine tier tags, and when the Scalar macro is defined no vector tier macro
(SSE, SSE2, SSE3, SSSE3, SSE4_1, SSE4_2, AVX, AVX2, MIC) is defined with it. -/
theorem resolution_selects_one_tier (env : Env) (r : Resolution) (h : resolve env = .ok r) :
    (∃! t, r.VC_IMPL = some t) ∧
    (r.macros.VC_IMPL_Scalar = true →
      r.macros.VC_IMPL_SSE = false ∧ r.macros.VC_IMPL_SSE2 = false ∧
      r.macros.VC_IMPL_SSE3 = false ∧ r.macros.VC_IMPL_SSSE3 = false ∧
      r.macros.VC_IMPL_SSE4_1 = false ∧ r.macros.VC_IMPL_SSE4_2 = false ∧
      r.macros.VC_IMPL_AVX = false ∧ r.macros.VC_IMPL_AVX2 = false ∧
      r.macros.VC_IMPL_MIC = false) := by
  obtain ⟨hc, hm, _, hi, _⟩ := resolve_ok env r h
  constructor
  · obtain ⟨t, ht⟩ := VC_IMPL_of_errorCheck _ hc
    refine ⟨t, by rw [hi, ht], fun t2 h2 => ?_⟩
    rw [hi, ht] at h2
    exact (Option.some.inj h2).symm
  · intro hs
    rw [hm] at hs ⊢
    have ht := macrosAfterDowngrade_scalar env hs
    have e : ∀ m : Macros, m.tiers = Macros.scalarOnly →
        m.VC_IMPL_SSE = false ∧ m.VC_IMPL_SSE2 = false ∧
        m.VC_IMPL_SSE3 = false ∧ m.VC_IMPL_SSSE3 = false ∧
        m.VC_IMPL_SSE4_1 = false ∧ m.VC_IMPL_SSE4_2 = false ∧
        m.VC_IMPL_AVX = false ∧ m.VC_IMPL_AVX2 = false ∧
        m.VC_IMPL_MIC = false := by
      intro m hm2
      have f : ∀ g : Macros → Bool, (∀ x, g x.tiers = g x) → g m = g Macros.scalarOnly := by
        intro g hg
        rw [← hg m, hm2]
      exact ⟨f (·.VC_IMPL_SSE) (fun _ => rfl), f (·.VC_IMPL_SSE2) (fun _ => rfl),
        f (·.VC_IMPL_SSE3) (fun _ => rfl), f (·.VC_IMPL_SSSE3) (fun _ => rfl),
        f (·.VC_IMPL_SSE4_1) (fun _ => rfl), f (·.VC_IMPL_SSE4_2) (fun _ => rfl),
        f (·.VC_IMPL_AVX) (fun _ => rfl), f (·.VC_IMPL_AVX2) (fun _ => rfl),
        f (·.VC_IMPL_MIC) (fun _ => rfl)⟩
    exact e _ ht

/-- C11 at an auto-detected Scalar build and at an auto-detected SSE2 build. -/
theorem resolution_selects_one_tier_witness :
    (∃! t, (some Implementation.SSE2Impl : Option Implementation) = some t) ∧
    (∃ r, resolve Env.bare = .ok r ∧ r.macros.VC_IMPL_Scalar = true ∧
      r.macros.VC_IMPL_SSE = false ∧ r.macros.VC_IMPL_AVX = false) :=
  ⟨(resolution_selects_one_tier { Env.bare with __SSE2__ := true } _ rfl).1,
   _, rfl, rfl,
   ((resolution_selects_one_tier Env.bare _ rfl).2 rfl).1,
   ((resolution_selects_one_tier Env.bare _ rfl).2 rfl).2.2.2.2.2.2.1⟩

theorem autoExtras_vex (env : Env) (m : Macros) :
    (autoExtras env m).VC_USE_VEX_CODING = m.VC_USE_VEX_CODING := by
  unfold autoExtras
  split_ifs <;> rfl

theorem overrideExtras_vex (impl : Nat) (m : Macros) :
    (overrideExtras impl m).VC_USE_VEX_CODING = m.VC_USE_VEX_CODING := by
  unfold overrideExtras
  split_ifs <;> rfl

theorem autoTiers_vex (env : Env) : (autoTiers env).VC_USE_VEX_CODING = false := by
  cases h1 : env.__MIC__ <;> cases h2 : env.__AVX2__ <;> cases h3 : env.__AVX__ <;>
    first
    | (simp [autoTiers, Macros.undefined, h1, h2, h3]; done)
    | (cases h4 : env.__SSE4_2__ <;> cases h5 : env.__SSE4_1__ <;>
        cases h6 : env.__SSSE3__ <;> cases h7 : env.__SSE3__ <;> cases h8 : env.__SSE2__ <;>
        simp [autoTiers, Macros.undefined, h1, h2, h3, h4, h5, h6, h7, h8])

theorem overrideTiers_vex (env : Env) (impl : Nat) :
    (overrideTiers env impl).VC_USE_VEX_CODING = false := by
  by_cases hcode : impl &&& Code.IMPL_MASK ∈ [Code.Scalar, Code.SSE, Code.SSE2, Code.SSE3,
      Code.SSSE3, Code.SSE4_1, Code.SSE4_2, Code.AVX, Code.AVX2, Code.MIC]
  · simp only [List.mem_cons, List.mem_singleton, List.not_mem_nil, or_false] at hcode
    rcases hcode with c | c | c | c | c | c | c | c | c | c <;>
      first
      | (simp [overrideTiers, c, Code.Scalar, Code.SSE, Code.SSE2, Code.SSE3, Code.SSSE3,
          Code.SSE4_1, Code.SSE4_2, Code.AVX, Code.AVX2, Code.MIC, Macros.undefined]; done)
      | (cases hp : env.__POPCNT__ <;> cases h4 : env.__SSE4_2__ <;>
          cases h5 : env.__SSE4_1__ <;> cases h6 : env.__SSSE3__ <;>
          cases h7 : env.__SSE3__ <;> cases h8 : env.__SSE2__ <;>
          simp [overrideTiers, c, hp, h4, h5, h6, h7, h8, Code.Scalar, Code.SSE, Code.SSE2,
            Code.SSE3, Code.SSSE3, Code.SSE4_1, Code.SSE4_2, Code.AVX, Code.AVX2, Code.MIC,
            Macros.undefined])
  · simp only [List.mem_cons, List.mem_singleton, not_or, List.not_mem_nil, or_false] at hcode
    obtain ⟨h1, h2, h3, h4, h5, h6, h7, h8, h9, h10⟩ := hcode
    by_cases hl : impl &&& Code.IMPL_MASK = 0 ∧ impl &&& Code.SSE4a ≠ 0
    · simp [overrideTiers, hl, Macros.undefined, Code.Scalar, Code.SSE,
        Code.SSE2, Code.SSE3, Code.SSSE3, Code.SSE4_1, Code.SSE4_2, Code.AVX, Code.AVX2,
        Code.MIC]
    · simp [overrideTiers, h1, h2, h3, h4, h5, h6, h7, h8, h9, h10, hl, Macros.undefined]

/-- At line 303 `VC_USE_VEX_CODING` is defined exactly when `__AVX__` is. -/
theorem selectImpl_vex (env : Env) : (selectImpl env).VC_USE_VEX_CODING = env.__AVX__ := by
  unfold selectImpl vexCoding
  cases ha : env.__AVX__
  · cases env.VC_IMPL with
    | none => simp [autoDetect, autoExtras_vex, autoTiers_vex]
    | some impl => simp [overrideCascade, overrideExtras_vex, overrideTiers_vex]
  · simp

/-- At line 327 `VC_USE_VEX_CODING` is defined exactly when `__AVX__` is and the block for
GCC < 4.3 was not entered. -/
theorem macrosAfterDowngrade_vex (env : Env) :
    (macrosAfterDowngrade env).VC_USE_VEX_CODING
      = (env.__AVX__ && !oldGccApplies env (selectImpl env)) := by
  cases hdg : oldGccApplies env (selectImpl env)
  · rw [macrosAfterDowngrade_of_not_oldGcc env hdg, selectImpl_vex]; simp
  · simp [macrosAfterDowngrade, oldGccDowngrade, hdg]

theorem implementation_of_add (m : Macros) (t : Nat) (ht : t ≤ 8) :
    (ImplementationT.of (t + extraTerms m)).Implementation = t := by
  unfold extraTerms ImplementationT.of
  cases m.VC_IMPL_SSE4a <;> cases m.VC_IMPL_XOP <;> cases m.VC_IMPL_FMA4 <;>
    cases m.VC_IMPL_POPCNT <;> cases m.VC_IMPL_FMA <;>
    interval_cases t <;> rfl

/-- C18: `VC_USE_VEX_CODING` is defined at the end of resolution exactly when the compiler
defines `__AVX__` and the block for GCC < 4.3 is not entered, whatever the tier; in a
successful resolution `CurrentImplementation::Implementation` is then `AVX2Impl` if the AVX2
macro is defined and `AVXImpl` otherwise, and when the flag is not defined it is the
selected tier `VC_IMPL`. -/
theorem vex_coding_recorded (env : Env) :
    ((macrosAfterDowngrade env).VC_USE_VEX_CODING = true ↔
      env.__AVX__ = true ∧ oldGccApplies env (selectImpl env) = false) ∧
    ∀ r, resolve env = .ok r →
      (r.macros.VC_USE_VEX_CODING = true ↔
        env.__AVX__ = true ∧ oldGccApplies env (selectImpl env) = false) ∧
      ∃ cur, r.CurrentImplementation = some cur ∧
        (r.macros.VC_USE_VEX_CODING = true →
          cur.Implementation =
            if r.macros.VC_IMPL_AVX2 = true then Implementation.AVX2Impl.toNat
            else Implementation.AVXImpl.toNat) ∧
        (r.macros.VC_USE_VEX_CODING = false →
          ∃ t, r.VC_IMPL = some t ∧ cur.Implementation = t.toNat) := by
  have hv : (macrosAfterDowngrade env).VC_USE_VEX_CODING = true ↔
      env.__AVX__ = true ∧ oldGccApplies env (selectImpl env) = false := by
    rw [macrosAfterDowngrade_vex]; simp
  refine ⟨hv, fun r hr => ?_⟩
  obtain ⟨hc, hm, _, hi, hcur⟩ := resolve_ok env r hr
  rw [hm, hi, hcur]
  refine ⟨hv, ?_⟩
  obtain ⟨t, ht⟩ := VC_IMPL_of_errorCheck _ hc
  generalize macrosAfterDowngrade env = m at ht ⊢
  have htt : ∃ tt, tierTerm m = some tt := by
    unfold tierTerm
    split_ifs
    · exact ⟨_, rfl⟩
    · exact ⟨_, rfl⟩
    · rw [ht]; exact ⟨_, rfl⟩
  obtain ⟨tt, htt⟩ := htt
  have hle := tierTerm_le _ _ htt
  refine ⟨ImplementationT.of (tt + extraTerms m), ?_, ?_, ?_⟩
  · simp [CurrentImplementation, currentFeatures, htt]
  · intro hvex
    rw [implementation_of_add _ _ hle]
    simp only [tierTerm, hvex, if_true] at htt
    split_ifs at htt ⊢ <;> exact (Option.some.inj htt).symm
  · intro hvex
    rw [implementation_of_add _ _ hle]
    refine ⟨t, ht, ?_⟩
    simp [tierTerm, hvex, ht] at htt
    exact htt.symm

/-- C18 at the override Scalar on a compiler that defines `__AVX__`: the selected tier is
`ScalarImpl`, the VEX flag is defined and `CurrentImplementation::Implementation` is
`AVXImpl`. -/
theorem vex_coding_recorded_witness :
    ∃ r cur, resolve { Env.bare with VC_IMPL := some Code.Scalar, __AVX__ := true } = .ok r ∧
      r.VC_IMPL = some .ScalarImpl ∧ r.macros.VC_USE_VEX_CODING = true ∧
      r.CurrentImplementation = some cur ∧
      cur.Implementation = Implementation.AVXImpl.toNat :=
  match (vex_coding_recorded { Env.bare with VC_IMPL := some Code.Scalar, __AVX__ := true }).2
      _ rfl with
  | ⟨_, cur, hc, hvex, _⟩ => ⟨_, cur, rfl, rfl, rfl, hc, hvex rfl⟩

/-- The two masks of `ImplementationT` cover the 32 bits of `Features`. -/
theorem implementationT_or (F : Nat) (h : F < 2 ^ 32) :
    (F &&& ImplementationMask) ||| (F &&& ExtraInstructionsMask) = F := by
  rw [← Nat.and_or_distrib_left]
  have hm : ImplementationMask ||| ExtraInstructionsMask = 2 ^ 32 - 1 := by decide
  rw [hm]
  exact Nat.and_pow_two_sub_one_of_lt_two_pow h

/-- The two masks of `ImplementationT` have no bit in common. -/
theorem implementationT_and (F : Nat) :
    (F &&& ImplementationMask) &&& (F &&& ExtraInstructionsMask) = 0 := by
  apply Nat.eq_of_testBit_eq
  intro i
  have hm : ImplementationMask &&& ExtraInstructionsMask = 0 := by decide
  have hi := congrArg (fun x => Nat.testBit x i) hm
  simp only [Nat.testBit_and, Nat.zero_testBit] at hi ⊢
  cases h1 : F.testBit i <;> simp [hi]

set_option maxRecDepth 100000 in
/-- A tier value below 9 plus a sum of distinct flags splits back into the two. -/
theorem implementationT_of_tier_add_flags :
    ∀ E ∈ extraInstructionFlags.powerset, ∀ t : Fin 9,
      (ImplementationT.of (t.val + ∑ e in E, e)).Implementation = t.val ∧
      (ImplementationT.of (t.val + ∑ e in E, e)).ExtraInstructions = ∑ e in E, e := by
  decide

theorem Implementation.toNat_lt (t : Implementation) : t.toNat < 9 := by
  cases t <;> decide

/-- C20: for every 32-bit `Features`, `ImplementationT<Features>` has `Value = Features`,
its `Implementation` and `ExtraInstructions` have no bit in common and their bitwise OR is
`Features`; and for every tier tag `t` and every set `E` of distinct flags of
`ExtraInstructions`, `ImplementationT<t + sum(E)>` has `Implementation = t` and
`ExtraInstructions = sum(E)`. -/
theorem implementationT_lossless (F : Nat) (hF : F < 2 ^ 32) (t : Implementation)
    (E : Finset Nat) (hE : E ⊆ extraInstructionFlags) :
    (ImplementationT.of F).Value = F ∧
    (ImplementationT.of F).Implementation = F &&& 0xfff ∧
    (ImplementationT.of F).ExtraInstructions = F &&& 0xfffff000 ∧
    (ImplementationT.of F).Implementation &&& (ImplementationT.of F).ExtraInstructions = 0 ∧
    (ImplementationT.of F).Implementation ||| (ImplementationT.of F).ExtraInstructions = F ∧
    (ImplementationT.of (t.toNat + ∑ e in E, e)).Implementation = t.toNat ∧
    (ImplementationT.of (t.toNat + ∑ e in E, e)).ExtraInstructions = ∑ e in E, e := by
  have hmod : F % 2 ^ 32 = F := Nat.mod_eq_of_lt hF
  have hsum := implementationT_of_tier_add_flags E (Finset.mem_powerset.mpr hE)
    ⟨t.toNat, t.toNat_lt⟩
  refine ⟨?_, ?_, ?_, ?_, ?_, hsum.1, hsum.2⟩
  · simp only [ImplementationT.of, hmod]
  · simp only [ImplementationT.of, hmod]
    rfl
  · simp only [ImplementationT.of, hmod]
    rfl
  · simp only [ImplementationT.of, hmod]
    exact implementationT_and F
  · simp only [ImplementationT.of, hmod]
    exact implementationT_or F hF

/-- C20 at `Features = 0x28007` and at the tier `AVX2Impl` with the flags FMA and POPCNT. -/
theorem implementationT_lossless_witness :
    (ImplementationT.of 0x28007).Implementation = 7 ∧
    (ImplementationT.of 0x28007).ExtraInstructions = 0x28000 ∧
    (ImplementationT.of (Implementation.AVX2Impl.toNat
      + ∑ e in ({FmaInstructions, PopcntInstructions} : Finset Nat), e)).Implementation
        = Implementation.AVX2Impl.toNat :=
  ⟨(implementationT_lossless 0x28007 (by decide) .AVX2Impl
      {FmaInstructions, PopcntInstructions} (by decide)).2.1,
   (implementationT_lossless 0x28007 (by decide) .AVX2Impl
      {FmaInstructions, PopcntInstructions} (by decide)).2.2.1,
   (implementationT_lossless 0x28007 (by decide) .AVX2Impl
      {FmaInstructions, PopcntInstructions} (by decide)).2.2.2.2.2.1⟩

/-- C12: `operator|` on load/store flags is declared exactly for an alignment flag paired
with `Streaming`, in either order; `Aligned|Streaming` is `Streaming` and
`Unaligned|Streaming` is `StreamingAndUnaligned`; it is commutative, the value of the result
is the bitwise OR of the operand values and is one of 0, 1, 2, 3 (the values of `Aligned`,
`Unaligned`, `Streaming`, `StreamingAndUnaligned`); `operator&` is declared on the same
pairs with the same results. -/
theorem flag_algebra (a b : LoadStoreFlag) :
    ((a.or b).isSome = true ↔
      (a.isAlignment = true ∧ b = .Streaming) ∨ (a = .Streaming ∧ b.isAlignment = true)) ∧
    LoadStoreFlag.or .Aligned .Streaming = some .Streaming ∧
    LoadStoreFlag.or .Unaligned .Streaming = some .StreamingAndUnaligned ∧
    a.or b = b.or a ∧
    (∀ c, a.or b = some c → c.value = a.value ||| b.value ∧ c.value ∈ [0, 1, 2, 3]) ∧
    (LoadStoreFlag.Aligned.value = 0 ∧ LoadStoreFlag.Unaligned.value = 1 ∧
      LoadStoreFlag.Streaming.value = 2 ∧ LoadStoreFlag.StreamingAndUnaligned.value = 3) ∧
    a.and b = a.or b := by
  cases a <;> cases b <;> decide

/-- C12 at `Unaligned | Streaming`. -/
theorem flag_algebra_witness :
    LoadStoreFlag.StreamingAndUnaligned.value
        = LoadStoreFlag.Unaligned.value ||| LoadStoreFlag.Streaming.value ∧
    LoadStoreFlag.StreamingAndUnaligned.value ∈ [0, 1, 2, 3] :=
  (flag_algebra .Unaligned .Streaming).2.2.2.2.1 .StreamingAndUnaligned rfl

/-- C13: for each of the fifteen operators exactly one `conditional_assign` overload is
enabled; for a compound assignment the call `conditional_assign<O>(lhs, mask, rhs)` gives
`lhs` the value that `lhs(mask) op rhs` gives it, and for an increment or decrement the call
`conditional_assign<O>(lhs, mask)` gives `lhs` the value and returns the vector that the
masked operator does; `conditional_assign<Assign>` leaves lane `i` equal to `rhs[i]` where
`mask[i]` is true and unchanged where it is false. -/
theorem conditional_assign_dispatch {α : Type} {Size : Nat} (ops : MaskedOperators α Size)
    (O : Operator) (lhs : Vector α Size) (mask : Mask Size) (rhs : Vector α Size) :
    ((binaryOverloads ops).filter (fun o => decide (o.name__ = O))).length
      + ((unaryOverloads ops).filter (fun o => decide (o.name__ = O))).length = 1 ∧
    ((maskedBinary ops O).isSome = true ∨ (maskedUnary ops O).isSome = true) ∧
    (∀ op, maskedBinary ops O = some op →
      conditional_assign ops O lhs mask rhs = some (op (lhs.masked mask) rhs)) ∧
    (∀ expr, maskedUnary ops O = some expr →
      conditional_assign_unary ops O lhs mask = some (expr (lhs.masked mask))) ∧
    (∃ r, conditional_assign ops .Assign lhs mask rhs = some r ∧
      ∀ i, r.d i = if mask.k i = true then rhs.d i else lhs.d i) := by
  refine ⟨?_, ?_, ?_, ?_, ?_⟩
  · cases O <;> rfl
  · cases O <;> simp [maskedBinary, maskedUnary]
  · intro op h
    cases O <;> simp only [maskedBinary, Option.some.injEq] at h <;>
      first
      | (subst h; rfl)
      | exact absurd h (by simp)
  · intro expr h
    cases O <;> simp only [maskedUnary, Option.some.injEq] at h <;>
      first
      | (subst h; rfl)
      | exact absurd h (by simp)
  · refine ⟨(lhs.masked mask).assignOp rhs, rfl, fun i => ?_⟩
    simp [Vector.masked, WriteMaskedVector.assignOp, Vector.assign, blend, sse_cast]

/-- C13 on two lanes of natural numbers: `conditional_assign<PlusAssign>` is `lhs(mask) +=
rhs`, which adds on the lane where the mask is true, and `conditional_assign<PostIncrement>`
is `lhs(mask)++`. -/
theorem conditional_assign_dispatch_witness :
    (conditional_assign (MaskedOperators.natLanes 2) .PlusAssign
        (Vector.mk ![1, 2]) (Mask.mk ![true, false]) (Vector.mk ![10, 20])
      = some ((MaskedOperators.natLanes 2).plusEq
          ((Vector.mk ![1, 2]).masked (Mask.mk ![true, false])) (Vector.mk ![10, 20]))) ∧
    ((MaskedOperators.natLanes 2).plusEq
        ((Vector.mk ![1, 2]).masked (Mask.mk ![true, false])) (Vector.mk ![10, 20])).lanes
      = [11, 2] ∧
    (conditional_assign_unary (MaskedOperators.natLanes 2) .PostIncrement
        (Vector.mk ![1, 2]) (Mask.mk ![true, false])
      = some ((MaskedOperators.natLanes 2).postInc
          ((Vector.mk ![1, 2]).masked (Mask.mk ![true, false])))) :=
  ⟨(conditional_assign_dispatch (MaskedOperators.natLanes 2) .PlusAssign
      (Vector.mk ![1, 2]) (Mask.mk ![true, false]) (Vector.mk ![10, 20])).2.2.1 _ rfl,
   by decide,
   (conditional_assign_dispatch (MaskedOperators.natLanes 2) .PostIncrement
      (Vector.mk ![1, 2]) (Mask.mk ![true, false]) (Vector.mk ![10, 20])).2.2.2.1 _ rfl⟩

theorem Vector.ext_lanes {α : Type} {Size : Nat} (a b : Vector α Size)
    (h : ∀ i, a.d i = b.d i) : a = b := by
  cases a
  cases b
  congr
  exact funext h

/-- Updating in place the lanes of a list of distinct indices changes exactly those
lanes. -/
theorem foldl_set_self {α : Type} {Size : Nat} (f : α → α) (l : List (Fin Size)) :
    ∀ (r : Vector α Size), l.Nodup → ∀ j,
      (l.foldl (fun r i => r.set i (f (r.d i))) r).d j
        = if j ∈ l then f (r.d j) else r.d j := by
  induction l with
  | nil => intro r _ j; simp
  | cons a l ih =>
    intro r hn j
    obtain ⟨ha, hl⟩ := List.nodup_cons.mp hn
    rw [List.foldl_cons, ih _ hl j]
    by_cases hja : j = a
    · subst hja
      simp [ha, Vector.set]
    · by_cases hjl : j ∈ l
      · simp [hjl, hja, Vector.set, Function.update_noteq hja]
      · simp [hjl, hja, Vector.set, Function.update_noteq hja]

/-- Storing `f` of the lanes of `v` at every index of a list sets exactly those lanes. -/
theorem foldl_set_other {α : Type} {Size : Nat} (f : α → α) (v : Vector α Size)
    (l : List (Fin Size)) :
    ∀ (r : Vector α Size) j,
      (l.foldl (fun r i => r.set i (f (v.d i))) r).d j
        = if j ∈ l then f (v.d j) else r.d j := by
  induction l with
  | nil => intro r j; simp
  | cons a l ih =>
    intro r j
    rw [List.foldl_cons, ih _ j]
    by_cases hja : j = a
    · subst hja
      by_cases hjl : j ∈ l
      · simp [hjl]
      · simp [hjl, Vector.set]
    · by_cases hjl : j ∈ l
      · simp [hjl, hja]
      · simp [hjl, hja, Vector.set, Function.update_noteq hja]

theorem mem_whereMask {Size : Nat} (mask : Mask Size) (j : Fin Size) :
    j ∈ whereMask mask ↔ mask.k j = true := by
  simp [whereMask, List.mem_filter, List.mem_finRange]

theorem whereMask_nodup {Size : Nat} (mask : Mask Size) : (whereMask mask).Nodup :=
  (List.nodup_finRange Size).filter _

/-- Lanes of the masked `apply`. -/
theorem Vector.applyMasked_lane {α : Type} {Size : Nat} (v : Vector α Size) (f : α → α)
    (m : Mask Size) (i : Fin Size) :
    (v.applyMasked f m).d i = if m.k i = true then f (v.d i) else v.d i := by
  unfold Vector.applyMasked
  rw [foldl_set_self f _ v (whereMask_nodup m) i]
  simp only [mem_whereMask]

/-- Lanes of the unmasked `apply`. -/
theorem Vector.apply_lane {α : Type} {Size : Nat} (v : Vector α Size) (f : α → α)
    (r0 : Vector α Size) (i : Fin Size) : (v.apply f r0).d i = f (v.d i) := by
  unfold Vector.apply for_all_vector_entries
  rw [foldl_set_other f v _ r0 i]
  simp [List.mem_finRange]

/-- C14: `apply(f, m)` returns a vector `r` with `r[i] = f(v[i])` on every lane where
`m[i]` is true and `r[i] = v[i]` where it is false (`v` itself is a value that the call does
not change); with a full mask the result is that of the unmasked `apply(f)`, whose lanes are
all `f(v[i])`, and with an empty mask it is `v`. -/
theorem apply_masked_lanes {α : Type} {Size : Nat} (v : Vector α Size) (f : α → α)
    (m : Mask Size) (r0 : Vector α Size) :
    (∀ i, (v.applyMasked f m).d i = if m.k i = true then f (v.d i) else v.d i) ∧
    v.applyMasked f (Mask.full Size) = v.apply f r0 ∧
    (∀ i, (v.apply f r0).d i = f (v.d i)) ∧
    v.applyMasked f (Mask.empty Size) = v := by
  refine ⟨Vector.applyMasked_lane v f m, ?_, Vector.apply_lane v f r0, ?_⟩
  · apply Vector.ext_lanes
    intro i
    rw [Vector.applyMasked_lane, Vector.apply_lane]
    simp [Mask.full]
  · apply Vector.ext_lanes
    intro i
    rw [Vector.applyMasked_lane]
    simp [Mask.empty]

/-- The masked `apply` on four lanes with the mask `[true, false, true, false]`. -/
theorem applyMasked_four_lanes :
    ((Vector.mk ![1, 2, 3, 4] : Vector Nat 4).applyMasked (· * 10)
      (Mask.mk ![true, false, true, false])).lanes = [10, 2, 30, 4] := by
  decide

/-- On every entry type the mask `(a == b)` is the negation of the mask `(a != b)`. -/
theorem Vector.cmpEq_eq_not_cmpNe {α : Type} (T : EntryCompare α) {Size : Nat}
    (a b : Vector α Size) : Vector.cmpEq T a b = (Vector.cmpNe T a b).not := by
  simp only [Vector.cmpEq, Vector.cmpNe, HT.cmpeq, HT.cmpneq, Mask.not]
  congr
  funext i
  simp

/-- A floating-point value compares equal to itself exactly when it is not a NaN. -/
theorem FloatEntry.eq_self {β : Type} [DecidableEq β] (x : FloatEntry β) :
    FloatEntry.eq x x = true ↔ x ≠ .nan := by
  cases x <;> simp [FloatEntry.eq]

/-- C15, as stated, fails: for the floating-point vector with lanes `[NaN, 1]` the mask
`(a == a)` is `[false, true]`, which is not the full mask. -/
theorem cmpEq_self_nan_lane :
    List.ofFn (Vector.cmpEq EntryCompare.floating
      (Vector.mk ![FloatEntry.nan, FloatEntry.number (1 : Int)])
      (Vector.mk ![FloatEntry.nan, FloatEntry.number (1 : Int)])).k = [false, true] ∧
    (Vector.cmpEq EntryCompare.floating
      (Vector.mk ![FloatEntry.nan, FloatEntry.number (1 : Int)])
      (Vector.mk ![FloatEntry.nan, FloatEntry.number (1 : Int)])).isFull = false := by
  decide

/-- C15, amended: for vectors `a`, `b` of an integral entry type and `fa`, `fb` of a
floating-point entry type, the mask `(a == b)` is the lane-wise negation of the mask
`(a != b)`, and likewise for `fa`, `fb`; `(a == a)` is the full mask; lane `i` of
`(fa == fa)` is true exactly when `fa[i]` is not a NaN, so `(fa == fa)` is the full mask
exactly when no lane of `fa` is a NaN. -/
theorem comparison_algebra_by_entry_type {α : Type} [DecidableEq α] {Size : Nat}
    (a b : Vector α Size) (fa fb : Vector (FloatEntry α) Size) :
    (Vector.cmpEq EntryCompare.integral a a).isFull = true ∧
    (∀ i, (Vector.cmpEq EntryCompare.integral a a).k i = true) ∧
    (∀ i, (Vector.cmpEq EntryCompare.integral a b).k i
      = !(Vector.cmpNe EntryCompare.integral a b).k i) ∧
    Vector.cmpEq EntryCompare.integral a b = (Vector.cmpNe EntryCompare.integral a b).not ∧
    (∀ i, (Vector.cmpEq EntryCompare.floating fa fb).k i
      = !(Vector.cmpNe EntryCompare.floating fa fb).k i) ∧
    Vector.cmpEq EntryCompare.floating fa fb
      = (Vector.cmpNe EntryCompare.floating fa fb).not ∧
    (∀ i, (Vector.cmpEq EntryCompare.floating fa fa).k i = true ↔ fa.d i ≠ .nan) ∧
    ((Vector.cmpEq EntryCompare.floating fa fa).isFull = true ↔ ∀ i, fa.d i ≠ .nan) := by
  have hlane : ∀ i, (Vector.cmpEq EntryCompare.floating fa fa).k i = true ↔ fa.d i ≠ .nan :=
    fun i => FloatEntry.eq_self (fa.d i)
  refine ⟨?_, ?_, ?_, Vector.cmpEq_eq_not_cmpNe _ a b, ?_, Vector.cmpEq_eq_not_cmpNe _ fa fb,
    hlane, ?_⟩
  · simp [Vector.cmpEq, HT.cmpeq, Mask.isFull, EntryCompare.integral]
  · intro i
    simp [Vector.cmpEq, HT.cmpeq, EntryCompare.integral]
  · intro i
    simp [Vector.cmpEq, Vector.cmpNe, HT.cmpeq, HT.cmpneq]
  · intro i
    simp [Vector.cmpEq, Vector.cmpNe, HT.cmpeq, HT.cmpneq]
  · simp only [Mask.isFull, decide_eq_true_eq]
    exact forall_congr' hlane

/-- C15, amended, on two lanes: the integral vector `[1, 2]` and the floating-point vector
`[1, 2]` compare equal to themselves on every lane, the latter having no NaN lane. -/
theorem comparison_algebra_by_entry_type_witness :
    (Vector.cmpEq EntryCompare.integral (Vector.mk ![(1 : Int), 2])
      (Vector.mk ![(1 : Int), 2])).isFull = true ∧
    (Vector.cmpEq EntryCompare.floating
      (Vector.mk ![FloatEntry.number (1 : Int), FloatEntry.number 2])
      (Vector.mk ![FloatEntry.number (1 : Int), FloatEntry.number 2])).isFull = true :=
  ⟨(comparison_algebra_by_entry_type (Vector.mk ![(1 : Int), 2]) (Vector.mk ![(1 : Int), 2])
      (Vector.mk ![FloatEntry.number (1 : Int), FloatEntry.number 2])
      (Vector.mk ![FloatEntry.number (1 : Int), FloatEntry.number 2])).1,
   (comparison_algebra_by_entry_type (Vector.mk ![(1 : Int), 2]) (Vector.mk ![(1 : Int), 2])
      (Vector.mk ![FloatEntry.number (1 : Int), FloatEntry.number 2])
      (Vector.mk ![FloatEntry.number (1 : Int), FloatEntry.number 2])).2.2.2.2.2.2.2.mpr
      (by decide)⟩

/-- The two comparisons on the integral lanes `[1,2,3,4]` and `[1,0,3,0]`. -/
theorem comparison_four_lanes :
    List.ofFn (Vector.cmpEq EntryCompare.integral (Vector.mk ![1, 2, 3, 4] : Vector Nat 4)
      (Vector.mk ![1, 0, 3, 0])).k = [true, false, true, false] ∧
    List.ofFn (Vector.cmpNe EntryCompare.integral (Vector.mk ![1, 2, 3, 4] : Vector Nat 4)
      (Vector.mk ![1, 0, 3, 0])).k = [false, true, false, true] := by
  decide

/-- C16, as stated, fails: in a build that defines `VC_ENABLE_FLOAT_BIT_OPERATORS`,
`operator~` of a `float` vector is accepted. -/
theorem complement_float_accepted :
    EntryType.float.is_integral = false ∧
    instantiateBitwise true .complement .float = none := by
  decide

/-- C16, amended: every bitwise operator is accepted for every integral entry type; the
binary operators `&`, `|`, `^` and their compound forms are rejected for a floating-point
entry type in every build configuration; `operator~` is rejected for a floating-point entry
type exactly in the builds that do not define `VC_ENABLE_FLOAT_BIT_OPERATORS`. -/
theorem bitwise_static_constraint (VC_ENABLE_FLOAT_BIT_OPERATORS : Bool)
    (op : BitwiseOperator) (T : EntryType) :
    (T.is_integral = true → instantiateBitwise VC_ENABLE_FLOAT_BIT_OPERATORS op T = none) ∧
    (T.is_integral = false → op ≠ .complement →
      instantiateBitwise VC_ENABLE_FLOAT_BIT_OPERATORS op T
        = some "bitwise operators can only be used with Vectors of integral type") ∧
    (T.is_integral = false →
      (instantiateBitwise VC_ENABLE_FLOAT_BIT_OPERATORS .complement T
          = some "bit-complement can only be used with Vectors of integral type" ↔
        VC_ENABLE_FLOAT_BIT_OPERATORS = false) ∧
      (instantiateBitwise VC_ENABLE_FLOAT_BIT_OPERATORS .complement T = none ↔
        VC_ENABLE_FLOAT_BIT_OPERATORS = true)) := by
  cases VC_ENABLE_FLOAT_BIT_OPERATORS <;> cases op <;> cases T <;>
    simp [instantiateBitwise, EntryType.is_integral]

/-- C16, amended, at `int` (accepted), at `&` on `double` (rejected even with
`VC_ENABLE_FLOAT_BIT_OPERATORS`) and at `~` on `float` without the macro (rejected). -/
theorem bitwise_static_constraint_witness :
    instantiateBitwise false .xorAssign .int = none ∧
    instantiateBitwise true .and .double
      = some "bitwise operators can only be used with Vectors of integral type" ∧
    instantiateBitwise false .complement .float
      = some "bit-complement can only be used with Vectors of integral type" :=
  ⟨(bitwise_static_constraint false .xorAssign .int).1 rfl,
   (bitwise_static_constraint true .and .double).2.1 rfl (by decide),
   ((bitwise_static_constraint false .complement .float).2.2 rfl).1.2 rfl⟩

/-- C17: for every `op` in `+`, `-`, `*`, `%` and vectors `a`, `x`, `y`: after `a op= x`
the vector `a` holds the value of the binary expression `a op x`, the value of the
expression `a op= x` is `a` itself, and chaining `(a op= x) op= y` leaves
`a = (a op x) op y`.  The operand `x` is passed by const reference and has no new value. -/
theorem compound_assign_agrees {α : Type} {Size : Nat} (HT : VectorHelper α Size)
    (op : ArithmeticOperator) (a x y : Vector α Size) :
    (Vector.compoundAssign HT op a x).1 = Vector.binaryOp HT op a x ∧
    (Vector.compoundAssign HT op a x).2 = (Vector.compoundAssign HT op a x).1 ∧
    (Vector.compoundAssign HT op (Vector.compoundAssign HT op a x).2 y).1
      = Vector.binaryOp HT op (Vector.binaryOp HT op a x) y := by
  cases op <;> exact ⟨rfl, rfl, rfl⟩

/-- The chain `(a += x) += y` on 8-bit unsigned lanes, with wrap-around. -/
theorem compound_assign_chain_lanes :
    (Vector.addAssign (VectorHelper.unsignedLanes 8 2)
      (Vector.addAssign (VectorHelper.unsignedLanes 8 2)
        (Vector.mk ![250, 1]) (Vector.mk ![3, 1])).2 (Vector.mk ![4, 1])).1.lanes
      = [1, 3] := by
  decide

/-- The collapse of runs after `value` is the greedy sublist without equal neighbours. -/
theorem cons_collapseRuns_eq_destutter' {α : Type} [DecidableEq α] (l : List α) :
    ∀ value : α, value :: collapseRuns value l = List.destutter' (· ≠ ·) value l := by
  induction l with
  | nil => intro value; simp [collapseRuns]
  | cons x xs ih =>
    intro value
    by_cases h : x = value
    · subst h
      simp [collapseRuns, List.destutter', ih]
    · have h2 : value ≠ x := fun e => h e.symm
      simp [collapseRuns, List.destutter', h, h2, ih]

/-- The calls of `callWithValuesSorted` are the lanes with every run of equal neighbours
collapsed. -/
theorem Vector.callWithValuesSorted_eq_destutter {α : Type} [DecidableEq α] {n : Nat}
    (v : Vector α (n + 1)) : v.callWithValuesSorted = v.lanes.destutter (· ≠ ·) := by
  rw [Vector.callWithValuesSorted_eq, cons_collapseRuns_eq_destutter']
  conv_rhs => rw [Vector.lanes_eq_cons]
  rfl

/-- On lanes in non-decreasing order the calls are strictly increasing and are the lane
values. -/
theorem Vector.callWithValuesSorted_sorted {α : Type} [LinearOrder α] {n : Nat}
    (v : Vector α (n + 1)) (h : v.lanes.Sorted (· ≤ ·)) :
    v.callWithValuesSorted.Sorted (· < ·) ∧
    ∀ x, x ∈ v.callWithValuesSorted ↔ x ∈ v.lanes := by
  rw [Vector.lanes_eq_cons] at h
  obtain ⟨hs, hm⟩ := collapseRuns_sorted (v.lanes.drop 1) (v.d 0) h
  rw [Vector.callWithValuesSorted_eq]
  refine ⟨hs, fun x => ?_⟩
  rw [hm x, ← Vector.lanes_eq_cons]

/-- C19: the values passed by `callWithValuesSorted` are the lane sequence with each run of
consecutive equal lanes collapsed to one call, so there are at least 1 and at most `Size`
calls; when the lanes are in non-decreasing order the calls are strictly increasing, are
exactly the values that occur in the lanes, and their number is the number of distinct lane
values. -/
theorem callWithValuesSorted_collapses_runs {α : Type} [LinearOrder α] {n : Nat}
    (v : Vector α (n + 1)) :
    v.callWithValuesSorted = v.lanes.destutter (· ≠ ·) ∧
    1 ≤ v.callWithValuesSorted.length ∧
    v.callWithValuesSorted.length ≤ n + 1 ∧
    (v.lanes.Sorted (· ≤ ·) →
      v.callWithValuesSorted.Sorted (· < ·) ∧
      (∀ x, x ∈ v.callWithValuesSorted ↔ x ∈ v.lanes) ∧
      v.callWithValuesSorted.length = v.lanes.toFinset.card) := by
  refine ⟨Vector.callWithValuesSorted_eq_destutter v, ?_, ?_, fun h => ?_⟩
  · rw [Vector.callWithValuesSorted_eq]
    simp
  · rw [Vector.callWithValuesSorted_eq_destutter]
    have hsub := List.destutter_sublist (· ≠ ·) v.lanes
    have hlen := hsub.length_le
    rw [Vector.lanes_length] at hlen
    exact hlen
  · obtain ⟨hs, hm⟩ := Vector.callWithValuesSorted_sorted v h
    refine ⟨hs, hm, ?_⟩
    have hnd : v.callWithValuesSorted.Nodup := hs.nodup
    rw [← List.toFinset_card_of_nodup hnd]
    congr 1
    ext x
    simp [hm x]

/-- C19 at the lanes `[1,1,2,5]` (in order: three calls for three distinct values) and
`[3,1,1,3]` (not in order: runs collapsed, `3` passed twice). -/
theorem callWithValuesSorted_collapses_runs_witness :
    (Vector.mk ![1, 1, 2, 5] : Vector Nat 4).callWithValuesSorted = [1, 2, 5] ∧
    (Vector.mk ![1, 1, 2, 5] : Vector Nat 4).callWithValuesSorted.length
      = (Vector.mk ![1, 1, 2, 5] : Vector Nat 4).lanes.toFinset.card ∧
    (Vector.mk ![3, 1, 1, 3] : Vector Nat 4).callWithValuesSorted = [3, 1, 3] :=
  ⟨by decide,
   ((callWithValuesSorted_collapses_runs (Vector.mk ![1, 1, 2, 5] : Vector Nat 4)).2.2.2
      (by decide)).2.2,
   by decide⟩

end Vc
